import Mathlib

/-!
# imperative/python/src/tensor.cpp

A shallow embedding of the operation router `apply`, the binding entry points
`py_apply`, `dtype_promotion`, `get_device`, the two resolvers `_dtype_promotion`
and `_get_device`, the accessors of `TensorWrapper` that touch `m_trace_info`
(`shape`, `numpy`, `_dev_tensor`, `detach`, the property setters) and the host-array
branch of its constructor.

Conventions of the embedding

* A C++ function that may throw returns `Except Exc α`; `Exc.kind` is the class
  of the exception and `Exc.what` the text of `e.what()`.
* The collaborators of `apply` that live in other translation units
  (`apply_grad`, `apply_trace`, the interpreter channel, the Python callable
  stored in a `GenericPyOp`) are fields of `Env`.  Every invocation that `apply`
  itself performs is written to `Outcome.calls`, in program order.
* `Tensor::flags_t` is an unsigned machine integer: flag words are `Nat`s and
  `~x` is the complement inside `FlagLayout.width` bits.
* Reference counts and `shared_ptr` identity are not modelled: an entity is the
  value of its fields.  The one `Py_DECREF` that is applied to an uninitialised
  pointer (the epilogue of the two resolvers) is modelled, as `Run.undefined`.
-/

namespace mgb.imperative.python

/-! ## Data model -/

/-- The type `interpreter::Interpreter::Handle`: an opaque pointer into the channel. -/
abbrev Handle := Nat

/-- The type `cg::VarNode*` (non-null). -/
abbrev VarNode := Nat

/-- The type `PyTypeObject*`. -/
abbrev PyType := Nat

/-- A `CompNode`.  Two nodes are equal when all their fields are; `name` is what
`to_string()` prints. -/
structure CompNode where
  id : Nat
  name : String
deriving DecidableEq, Repr

/-- The method `CompNode::to_string()`. -/
def CompNode.to_string (cn : CompNode) : String := cn.name

/-- The type `mgb::DType`, known here only by identity. -/
structure DType where
  enumv : Nat
deriving DecidableEq, Repr

/-- The fields of numpy's `PyArray_Descr` read by this file (`kind`) plus the
element size, which tells descriptors of one kind apart. -/
structure PyArray_Descr where
  kind : Char
  elsize : Nat
deriving DecidableEq, Repr

/-- The struct `TraceInfo` stored in `Tensor::m_trace_info`. -/
structure TraceInfo where
  data_read : Bool
  value_read : Bool
  shape_read : Bool
  mixin_handle : Int
deriving DecidableEq, Repr

/-- Modelled from the spec: `TraceInfo` is declared in `trace.h`, which is not among
the sources.  The three booleans record which kinds of host-visible access have
occurred on the entity since creation, so a fresh entity has none of them set. -/
def TraceInfo.init : TraceInfo :=
  { data_read := false, value_read := false, shape_read := false, mixin_handle := -1 }

/-- The struct `Tensor` (the Tensor Entity): `m_handle.get()` may be null (`none`)
and `m_var` may be null (`none`). -/
structure Tensor where
  m_flags : Nat
  m_handle : Option Handle
  m_var : Option VarNode
  m_trace_info : TraceInfo
deriving DecidableEq, Repr

/-- The constructor `Tensor(Handle)` used by `std::make_shared<Tensor>(h)`: a fresh
entity holding `h`, no graph node, no flags, fresh trace info. -/
def Tensor.ofHandle (h : Handle) : Tensor :=
  { m_flags := 0, m_handle := some h, m_var := none, m_trace_info := TraceInfo.init }

/-- Modelled from the spec: `Tensor::flags_t` and the constants of `Tensor::Flags`
are declared in `tensor.h`, which is not among the sources.  The spec describes
`flags` as a bit set drawn from `{SCALAR, REQUIRES_GRAD, TRACE}`: three distinct
single bits of a word of `width` bits.  The fields are the bit positions. -/
structure FlagLayout where
  width : Nat
  scalarBit : Nat
  gradBit : Nat
  traceBit : Nat
  scalar_lt : scalarBit < width
  grad_lt : gradBit < width
  trace_lt : traceBit < width
  scalar_ne_grad : scalarBit ≠ gradBit
  scalar_ne_trace : scalarBit ≠ traceBit
  grad_ne_trace : gradBit ≠ traceBit

/-- The constant `Tensor::Flags::SCALAR`. -/
def FlagLayout.SCALAR (F : FlagLayout) : Nat := 2 ^ F.scalarBit

/-- The constant `Tensor::Flags::GRAD` (the spec's REQUIRES_GRAD). -/
def FlagLayout.GRAD (F : FlagLayout) : Nat := 2 ^ F.gradBit

/-- The constant `Tensor::Flags::TRACE`. -/
def FlagLayout.TRACE (F : FlagLayout) : Nat := 2 ^ F.traceBit

/-- The layout used in the concrete examples: a 64-bit word with
`SCALAR = 1`, `GRAD = 1 << 1`, `TRACE = 1 << 2`. -/
def FlagLayout.std : FlagLayout :=
  { width := 64, scalarBit := 0, gradBit := 1, traceBit := 2,
    scalar_lt := by decide, grad_lt := by decide, trace_lt := by decide,
    scalar_ne_grad := by decide, scalar_ne_trace := by decide,
    grad_ne_trace := by decide }

/-- The operator `~x` on an unsigned word of `w` bits. -/
def bitNot (w x : Nat) : Nat := (2 ^ w - 1) ^^^ (x % 2 ^ w)

/-- The C++ condition `if (flags & m)`: the conjunction is non-zero. -/
def hasFlag (flags m : Nat) : Bool := decide (flags &&& m ≠ 0)

/-- An `OpDef`.  `try_cast_final<GenericPyOp>()` succeeds exactly on `GenericPyOp`,
whose field `obj` is the Python object carrying `_default_rule`. -/
inductive OpDef where
  | GenericPyOp (obj : Nat)
  | other (id : Nat)
deriving DecidableEq, Repr

/-- The struct `ApplyContext`; `nargs` is `args.length`. -/
structure ApplyContext where
  flags : Nat
  op : OpDef
  args : List Tensor
  pytype : PyType
  backward : Bool
deriving DecidableEq, Repr

/-- The Python objects that reach this file.

* `tensor` is a `TensorWrapper` (the only objects on which `TensorWrapper::try_cast`
  succeeds), of Python type `pytype`, sharing the entity `t`;
* `bool`, `int`, `float` are objects of exactly these builtin types;
* `array` is a numpy array or numpy scalar (`PyArray_Check || PyArray_CheckScalar`)
  with descriptor `descr`;
* `tuple` and `list` satisfy `PyTuple_Check` resp. `PyList_Check`;
* `opdef` is an object that casts to `std::shared_ptr<OpDef>`; the boolean says
  whether its type name contains "BackwardGraph";
* `object` is anything else.

For `array` and `object`, `items` is `some xs` when the object has a length and
iterating it yields `xs`, and `none` when `len()` raises `TypeError`. -/
inductive PyObj where
  | none
  | bool (b : Bool)
  | int (v : Int)
  | float
  | tensor (pytype : PyType) (t : Tensor)
  | array (descr : PyArray_Descr) (items : Option (List PyObj))
  | tuple (xs : List PyObj)
  | list (xs : List PyObj)
  | opdef (is_backward_graph : Bool) (op : OpDef)
  | object (items : Option (List PyObj))

/-- The function `TensorWrapper::try_cast` followed by `->m_tensor`. -/
def PyObj.try_cast : PyObj → Option Tensor
  | .tensor _ t => some t
  | _ => Option.none

/-- The pair `py::len(o)` and `for (auto&& i : o)`: the elements of a sized iterable,
`none` when `len()` raises. -/
def PyObj.items : PyObj → Option (List PyObj)
  | .tuple xs => some xs
  | .list xs => some xs
  | .array _ it => it
  | .object it => it
  | _ => Option.none

/-- Classes of exceptions seen in this file. -/
inductive ExcKind where
  | TypeError
  | ValueError
  | RuntimeError
  | AttributeError
  | AssertionError
  | Other
deriving DecidableEq, Repr

/-- A thrown C++ exception (or a raised Python error): its class and `what()`.
`AssertionError` is what a failed `mgb_assert` throws. -/
structure Exc where
  kind : ExcKind
  what : String
deriving DecidableEq, Repr

/-- The result type `apply_result_t`. -/
abbrev apply_result_t := List Tensor

/-- The collaborators of `apply`.

* `global_disable` is the static `ApplyContext::global_disable`;
* `apply_grad`, `apply_trace` are the entry points of the gradient tape and the
  trace recorder;
* `default_rule obj` is `py::getattr(obj, "_default_rule")` (an error when the
  lookup raises) and the obtained callable, whose call returns an object or raises;
* `len_error` is the exception `py::len` throws for an object without length;
* `apply_op` is `interpreter_for_py->apply_op`; a null handle is `none`. -/
structure Env where
  global_disable : Nat
  len_error : Exc
  apply_grad : ApplyContext → Except Exc apply_result_t
  apply_trace : ApplyContext → Except Exc apply_result_t
  default_rule : Nat → Except Exc (List PyObj → Except Exc PyObj)
  apply_op : OpDef → List (Option Handle) → Except Exc (List Handle)

/-- One invocation of a collaborator made by `apply`, with its arguments. -/
inductive Call where
  | apply_grad (ctx : ApplyContext)
  | apply_trace (ctx : ApplyContext)
  | default_rule (obj : Nat) (pyin : List PyObj)
  | apply_op (op : OpDef) (handles : List (Option Handle))

/-- What a run of `apply` produces: the returned entities or the exception thrown,
and the collaborators invoked, in order. -/
structure Outcome where
  result : Except Exc apply_result_t
  calls : List Call

/-- The collaborator a call goes to. -/
inductive Route where
  | grad
  | trace
  | rule
  | channel
deriving DecidableEq, Repr

/-- The collaborator invoked by a call. -/
def Call.route : Call → Route
  | .apply_grad _ => .grad
  | .apply_trace _ => .trace
  | .default_rule _ _ => .rule
  | .apply_op _ _ => .channel

/-- Whether a call is an invocation of the gradient tape. -/
def Call.is_grad (c : Call) : Bool := decide (c.route = Route.grad)

/-- Whether a call is an invocation of the trace recorder. -/
def Call.is_trace (c : Call) : Bool := decide (c.route = Route.trace)

/-- Whether a call is an invocation of a default rule. -/
def Call.is_rule (c : Call) : Bool := decide (c.route = Route.rule)

/-- Whether a call is a submission to the channel. -/
def Call.is_channel (c : Call) : Bool := decide (c.route = Route.channel)

/-- The word `ctx.flags & ~ApplyContext::global_disable` computed first by `apply`. -/
def effective_flags (F : FlagLayout) (env : Env) (ctx : ApplyContext) : Nat :=
  ctx.flags &&& bitNot F.width env.global_disable

/-- The wrappers `apply` builds for a generic operator: one per operand, in order. -/
def wrap_args (ctx : ApplyContext) : List PyObj :=
  ctx.args.map (fun t => PyObj.tensor ctx.pytype t)

/-! ## The router -/

/-- The loop of `apply` over the elements of the rule's return value:
`mgb_assert(tw)` on each, collecting `tw->m_tensor`. -/
def unwrap_seq : List PyObj → apply_result_t → Except Exc apply_result_t
  | [], ret => .ok ret
  | i :: rest, ret =>
    match i.try_cast with
    | Option.none => .error { kind := .AssertionError, what := "tw" }
    | some t => unwrap_seq rest (ret ++ [t])

/-- Lines 100-110 of `apply`: turn the rule's return value into entities. -/
def unwrap_pyout (len_error : Exc) (pyout : PyObj) : Except Exc apply_result_t :=
  match pyout.try_cast with
  | some t => .ok [t]
  | Option.none =>
    match pyout.items with
    | Option.none => .error len_error
    | some xs => unwrap_seq xs []

/-- The function `apply(ApplyContext& ctx)`. -/
def apply (F : FlagLayout) (env : Env) (ctx : ApplyContext) : Outcome :=
  let flags := effective_flags F env ctx
  -- `if (flags & Tensor::Flags::SCALAR) { /* TODO: emulate scalar */ }`
  let _scalar : Unit := if hasFlag flags F.SCALAR then () else ()
  if hasFlag flags F.GRAD then
    { result := env.apply_grad ctx, calls := [Call.apply_grad ctx] }
  else
    match ctx.op with
    | .GenericPyOp obj =>
      let pyin := wrap_args ctx
      match env.default_rule obj with
      | .error e => { result := .error e, calls := [] }
      | .ok f =>
        match f pyin with
        | .error e => { result := .error e, calls := [Call.default_rule obj pyin] }
        | .ok pyout =>
          { result := unwrap_pyout env.len_error pyout,
            calls := [Call.default_rule obj pyin] }
    | .other _ =>
      if hasFlag flags F.TRACE then
        { result := env.apply_trace ctx, calls := [Call.apply_trace ctx] }
      else
        let handles := ctx.args.map (fun t => t.m_handle)
        match env.apply_op ctx.op handles with
        | .error e => { result := .error e, calls := [Call.apply_op ctx.op handles] }
        | .ok output_handles =>
          { result := .ok (output_handles.map Tensor.ofHandle),
            calls := [Call.apply_op ctx.op handles] }

/-- The function `py_apply`, the binding entry point of `apply`; `is_tracing` is the
global of that name.  The Python error it sets is returned as the exception. -/
def py_apply (F : FlagLayout) (env : Env) (is_tracing : Bool) (args : List PyObj) :
    Except Exc (List PyObj) × List Call :=
  match args with
  | op :: a1 :: more =>
    let operands := a1 :: more
    let pytype : PyType := match a1 with
      | .tensor p _ => p
      | _ => 0
    match op with
    | .opdef is_backward_graph opd =>
      match operands.mapM PyObj.try_cast with
      | Option.none => (.error { kind := .TypeError, what := "expect Tensor" }, [])
      | some tensors =>
        let flags0 := tensors.foldl (fun fl t => fl ||| t.m_flags) 0
        let flags := if is_tracing then flags0 ||| F.TRACE else flags0
        let ctx : ApplyContext :=
          { flags := flags, op := opd, args := tensors, pytype := pytype,
            backward := is_backward_graph }
        let out := apply F env ctx
        match out.result with
        | .ok outputs => (.ok (outputs.map (fun t => PyObj.tensor pytype t)), out.calls)
        | .error e => (.error { kind := .RuntimeError, what := e.what }, out.calls)
    | _ => (.error { kind := .RuntimeError, what := "cast to OpDef failed" }, [])
  | _ =>
    (.error { kind := .TypeError,
              what := "py_apply expects one Op and at least one tensor as argument" }, [])

/-! ## The dtype and device resolvers -/

/-- The numpy collaborators and the accessors of `Tensor` declared in `tensor.h`
(not among the sources): `Tensor::dtype()`, `Tensor::comp_node()`, the two
descriptor conversions of `npy::` and `PyArray_PromoteTypes`. -/
structure Host where
  tensor_dtype : Tensor → DType
  tensor_comp_node : Tensor → CompNode
  dtype_mgb2np_descr : DType → PyArray_Descr
  dtype_np2mgb_descr : PyArray_Descr → DType
  PyArray_PromoteTypes : PyArray_Descr → PyArray_Descr → PyArray_Descr

/-- The numpy type numbers used by `scalar2dtype`. -/
inductive NPY_TYPES where
  | NPY_BOOL
  | NPY_INT32
  | NPY_FLOAT32
deriving DecidableEq, Repr

/-- The numpy function `PyArray_DescrFromType` on these type numbers. -/
def PyArray_DescrFromType : NPY_TYPES → PyArray_Descr
  | .NPY_BOOL => { kind := 'b', elsize := 1 }
  | .NPY_INT32 => { kind := 'i', elsize := 4 }
  | .NPY_FLOAT32 => { kind := 'f', elsize := 4 }

/-- The function `category_priority`: map `numpy.dtype.kind` to priority. -/
def category_priority (c : Char) : Nat :=
  if c = 'f' then 3
  else if c = 'i' then 2
  else if c = 'u' then 2
  else if c = 'b' then 1
  else 0

/-- The function `max_priority`. -/
def max_priority (types : List PyArray_Descr) : Nat :=
  if types.length = 0 then 0
  else types.foldl (fun max_p desc => max max_p (category_priority desc.kind)) 0

/-- The function `promote_types`, given `PyArray_PromoteTypes`. -/
def promote_types (promote : PyArray_Descr → PyArray_Descr → PyArray_Descr)
    (types : List PyArray_Descr) (cat : Nat) : Except Exc PyArray_Descr :=
  let used_types := types.filter (fun desc => category_priority desc.kind = cat)
  match used_types with
  | [] => .error { kind := .AssertionError, what := "size of used_types is 0" }
  | first :: rest => .ok (rest.foldl (fun res used => promote used res) first)

/-- The function `scalar2dtype`; `none` is its `nullptr`. -/
def scalar2dtype : PyObj → Option PyArray_Descr
  | .bool _ => some (PyArray_DescrFromType .NPY_BOOL)
  | .int _ => some (PyArray_DescrFromType .NPY_INT32)
  | .float => some (PyArray_DescrFromType .NPY_FLOAT32)
  | _ => Option.none

/-- The prologue shared by `_dtype_promotion` and `_get_device`: a single argument
that is a tuple or a list is replaced by its elements. -/
def flatten_args (args : List PyObj) : List PyObj :=
  match args with
  | [PyObj.tuple xs] => xs
  | [PyObj.list xs] => xs
  | _ => args

/-- The classification loop of `_dtype_promotion`, from the state
`(tensors, scalars)` of the two vectors. -/
def collect_descrs (H : Host) :
    List PyObj → List PyArray_Descr → List PyArray_Descr →
      List PyArray_Descr × List PyArray_Descr
  | [], tensors, scalars => (tensors, scalars)
  | handle :: rest, tensors, scalars =>
    match handle with
    | .none => collect_descrs H rest tensors scalars
    | .tensor _ t =>
      collect_descrs H rest (tensors ++ [H.dtype_mgb2np_descr (H.tensor_dtype t)]) scalars
    | .array descr _ => collect_descrs H rest (tensors ++ [descr]) scalars
    | other =>
      match scalar2dtype other with
      | some descr => collect_descrs H rest tensors (scalars ++ [descr])
      | Option.none => collect_descrs H rest tensors scalars

/-- The text thrown by `_dtype_promotion`, as spelled in the source. -/
def no_dtype_msg : String := "invalid input, no dtype avaliable"

/-- The outcome of running a C++ function: a returned value, a thrown exception, or
undefined behaviour (in this file: the use of an uninitialised pointer). -/
inductive Run (α : Type) where
  | ok (a : α)
  | error (e : Exc)
  | undefined

/-- The local `is_tuple` of `_dtype_promotion` and `_get_device` after their prologue
(lines 531-542, 586-597): set exactly when the call has a single argument that is a
tuple or a list.  Only then is the local `PyObject* tuple` assigned. -/
def is_tuple (args : List PyObj) : Bool :=
  match args with
  | [PyObj.tuple _] => true
  | [PyObj.list _] => true
  | _ => false

/-- The epilogue `Py_DECREF(tuple); return res;` of both resolvers (lines 581-582 and
619-620).  It is not guarded by `is_tuple`: on a call that is not a single tuple or
list the macro reads and writes through the uninitialised pointer `tuple`. -/
def decref_tuple_return {α : Type} (is_tuple : Bool) (res : α) : Run α :=
  if is_tuple then Run.ok res else Run.undefined

/-- Lines 526-578 of `_dtype_promotion`, everything before the epilogue: the exception
thrown, or the value of the local `res`. -/
def dtype_promotion_res (H : Host) (args : List PyObj) : Except Exc PyArray_Descr :=
  let vecs := collect_descrs H (flatten_args args) [] []
  let tensors := vecs.1
  let scalars := vecs.2
  let max_pri_scalars := max_priority scalars
  let max_pri_tensors := max_priority tensors
  if max_pri_scalars ≤ 0 ∧ max_pri_tensors ≤ 0 then
    .error { kind := .ValueError, what := no_dtype_msg }
  else if max_pri_scalars > max_pri_tensors then
    promote_types H.PyArray_PromoteTypes scalars max_pri_scalars
  else
    promote_types H.PyArray_PromoteTypes tensors max_pri_tensors

/-- The function `_dtype_promotion`: lines 526-578, then the epilogue of lines
579-582. -/
def _dtype_promotion (H : Host) (args : List PyObj) : Run PyArray_Descr :=
  match dtype_promotion_res H args with
  | .error e => Run.error e
  | .ok res => decref_tuple_return (is_tuple args) res

/-- The text `ssprintf("ambiguous device: %s vs %s", ...)` of `_get_device` for the
devices `cn` and `cn1`. -/
def ambiguous_device_msg (cn cn1 : CompNode) : String :=
  "ambiguous device: " ++ cn.to_string ++ " vs " ++ cn1.to_string

/-- The default-constructed `CompNode` that `_get_device` starts from. -/
def CompNode.invalid : CompNode := { id := 0, name := "invalid" }

/-- The loop of `_get_device`, from the state `(valid, cn)`. -/
def device_loop (H : Host) : List PyObj → Bool → CompNode → Except Exc (Bool × CompNode)
  | [], valid, cn => .ok (valid, cn)
  | handle :: rest, valid, cn =>
    match handle.try_cast with
    | some t =>
      if !valid then
        device_loop H rest true (H.tensor_comp_node t)
      else
        let cn1 := H.tensor_comp_node t
        if cn1 ≠ cn then
          .error { kind := .ValueError, what := ambiguous_device_msg cn cn1 }
        else device_loop H rest valid cn
    | Option.none => device_loop H rest valid cn

/-- Lines 585-618 of `_get_device`, everything before the epilogue: the exception
thrown, or the value of the local `cn`. -/
def get_device_res (H : Host) (args : List PyObj) : Except Exc CompNode :=
  match device_loop H (flatten_args args) false CompNode.invalid with
  | .error e => .error e
  | .ok (valid, cn) =>
    if !valid then .error { kind := .AssertionError, what := "expect at least 1 device" }
    else .ok cn

/-- The function `_get_device`: lines 585-618, then the epilogue of lines 619-620. -/
def _get_device (H : Host) (args : List PyObj) : Run CompNode :=
  match get_device_res H args with
  | .error e => Run.error e
  | .ok cn => decref_tuple_return (is_tuple args) cn

/-- The binding entry point `dtype_promotion`. -/
def dtype_promotion (H : Host) (args : List PyObj) : Run DType :=
  if args.length = 0 then
    Run.error { kind := .TypeError, what := "empty input is not allowed" }
  else
    match _dtype_promotion H args with
    | .ok res => Run.ok (H.dtype_np2mgb_descr res)
    | .error e => Run.error { kind := .RuntimeError, what := e.what }
    | .undefined => Run.undefined

/-- The binding entry point `get_device`. -/
def get_device (H : Host) (args : List PyObj) : Run CompNode :=
  if args.length = 0 then
    Run.error { kind := .TypeError, what := "empty input is not allowed" }
  else
    match _get_device H args with
    | .ok cn => Run.ok cn
    | .error e => Run.error { kind := .RuntimeError, what := e.what }
    | .undefined => Run.undefined

/-! ## Concrete collaborators for the examples -/

/-- A channel that rejects a null handle and otherwise returns the one handle `100`. -/
def demo_apply_op (_op : OpDef) (handles : List (Option Handle)) : Except Exc (List Handle) :=
  if handles.all Option.isSome then .ok [100]
  else .error { kind := .AssertionError, what := "invalid handle" }

/-- An environment for the examples: the tape returns no entity, the recorder returns
one entity with handle `7`, every generic operator has a rule and the rule returns
the tuple of its arguments followed by `tail`. -/
def demo_env (disable : Nat) (tail : List PyObj) : Env :=
  { global_disable := disable
    len_error := { kind := .TypeError, what := "object has no len()" }
    apply_grad := fun _ => .ok []
    apply_trace := fun _ => .ok [Tensor.ofHandle 7]
    default_rule := fun _ => .ok (fun pyin => .ok (PyObj.tuple (pyin ++ tail)))
    apply_op := demo_apply_op }

/-- A context for the examples: flag word `flags`, operator `op`, one operand `t`. -/
def demo_ctx (flags : Nat) (op : OpDef) (t : Tensor) : ApplyContext :=
  { flags := flags, op := op, args := [t], pytype := 1, backward := false }

/-- An entity without channel handle, backed by graph node `3`. -/
def var_tensor : Tensor :=
  { m_flags := 0, m_handle := none, m_var := some 3, m_trace_info := TraceInfo.init }

/-- The descriptor that `_dtype_promotion` appends to `tensors` for an operand:
that of a Tensor Entity or of an array-like value. -/
def tensor_descr (H : Host) : PyObj → Option PyArray_Descr
  | .tensor _ t => some (H.dtype_mgb2np_descr (H.tensor_dtype t))
  | .array descr _ => some descr
  | _ => Option.none

/-- The tensor-sourced descriptors of an operand list, in operand order. -/
def tensor_sourced (H : Host) (operands : List PyObj) : List PyArray_Descr :=
  operands.filterMap (tensor_descr H)

/-- The scalar-sourced descriptors of an operand list, in operand order. -/
def scalar_sourced (operands : List PyObj) : List PyArray_Descr :=
  operands.filterMap scalar2dtype

/-- The descriptors of `types` whose category is `cat`, in order. -/
def in_category (types : List PyArray_Descr) (cat : Nat) : List PyArray_Descr :=
  types.filter (fun desc => category_priority desc.kind = cat)

/-- The devices of the Tensor Entities of an operand list, in operand order. -/
def tensor_devices (H : Host) (operands : List PyObj) : List CompNode :=
  operands.filterMap (fun o => o.try_cast.map H.tensor_comp_node)

/-- A host for the examples.  An entity with handle `h` has dtype number `h % 10`
(`0` float32, `1` int32, otherwise bool) and lives on device `A` when `h < 10` and on
device `B` otherwise; promotion keeps the larger element size. -/
def demo_host : Host :=
  { tensor_dtype := fun t => { enumv := t.m_handle.getD 0 % 10 }
    tensor_comp_node := fun t =>
      if t.m_handle.getD 0 < 10 then { id := 1, name := "A" } else { id := 2, name := "B" }
    dtype_mgb2np_descr := fun d =>
      if d.enumv = 0 then PyArray_DescrFromType .NPY_FLOAT32
      else if d.enumv = 1 then PyArray_DescrFromType .NPY_INT32
      else PyArray_DescrFromType .NPY_BOOL
    dtype_np2mgb_descr := fun descr =>
      if descr.kind = 'f' then { enumv := 0 }
      else if descr.kind = 'i' then { enumv := 1 }
      else { enumv := 2 }
    PyArray_PromoteTypes := fun a b => if a.elsize < b.elsize then b else a }

/-- A wrapped entity of Python type `1` with channel handle `h`. -/
def demo_tensor (h : Handle) : PyObj := PyObj.tensor 1 (Tensor.ofHandle h)

/-! ## The accessors of `TensorWrapper` -/

/-- The collaborators of the accessors of `TensorWrapper`.

* `truth o` is `cast<bool>()` on a Python object `o` that is not a `bool`;
* `var_shape` is `m_var->shape()` and `tensor_shape` is `Tensor::shape()`;
* `infer_static v` says whether `get_infer_type(v).value` has `CONST` or `RT_STATIC`;
* `infer_value_fallible v` is the array made from the inferred value, `none` when
  the inference returns null;
* `get_value h` is `interpreter_for_py->get_value(h)` followed by
  `npy::ndarray_from_tensor`: an exception of the channel, `none` for a null array;
* `squeeze` is `PyArray_Squeeze`;
* `get_dev_tensor` is `interpreter_for_py->get_dev_tensor`. -/
structure Reads where
  truth : PyObj → Except Exc Bool
  var_shape : VarNode → List Nat
  tensor_shape : Tensor → List Nat
  infer_static : VarNode → Bool
  infer_value_fallible : VarNode → Option PyObj
  get_value : Option Handle → Except Exc (Option PyObj)
  squeeze : PyObj → PyObj
  get_dev_tensor : Option Handle → Except Exc PyObj

/-- The conversion `py_dest.cast<bool>()`: `True` and `False` are themselves. -/
def cast_bool (R : Reads) : PyObj → Except Exc Bool
  | .bool b => .ok b
  | o => R.truth o

/-- The constructor `Tensor(cg::VarNode*)`: a fresh entity that has only a graph node. -/
def Tensor.ofVar (v : Option VarNode) : Tensor :=
  { m_flags := 0, m_handle := none, m_var := v, m_trace_info := TraceInfo.init }

/-- The setter `TensorWrapper::set_data_read` made by `REGISTE_TENSORWRAPPER_FUNC`:
the entity afterwards and the exception of the cast, if any. -/
def TensorWrapper.set_data_read (R : Reads) (t : Tensor) (dest : PyObj) :
    Tensor × Except Exc Unit :=
  match cast_bool R dest with
  | .error e => (t, .error e)
  | .ok real_dest =>
    ({ t with m_trace_info := { t.m_trace_info with data_read := real_dest } }, .ok ())

/-- The setter `TensorWrapper::set_value_read`. -/
def TensorWrapper.set_value_read (R : Reads) (t : Tensor) (dest : PyObj) :
    Tensor × Except Exc Unit :=
  match cast_bool R dest with
  | .error e => (t, .error e)
  | .ok real_dest =>
    ({ t with m_trace_info := { t.m_trace_info with value_read := real_dest } }, .ok ())

/-- The setter `TensorWrapper::set_shape_read`. -/
def TensorWrapper.set_shape_read (R : Reads) (t : Tensor) (dest : PyObj) :
    Tensor × Except Exc Unit :=
  match cast_bool R dest with
  | .error e => (t, .error e)
  | .ok real_dest =>
    ({ t with m_trace_info := { t.m_trace_info with shape_read := real_dest } }, .ok ())

/-- The text of the `ValueError` of `TensorWrapper::numpy`. -/
def tensor_invalid : Exc := { kind := .ValueError, what := "tensor invalid" }

/-- The method `TensorWrapper::shape`: the entity afterwards and the returned object. -/
def TensorWrapper.shape (F : FlagLayout) (R : Reads) (skip_tracing : Bool) (t : Tensor) :
    Tensor × Except Exc PyObj :=
  match (if !skip_tracing then TensorWrapper.set_shape_read R t (PyObj.bool true)
         else (t, .ok ())) with
  | (t1, .error e) => (t1, .error e)
  | (t1, .ok _) =>
    if hasFlag t1.m_flags F.SCALAR then (t1, .ok (PyObj.tuple []))
    else
      let shape := match t1.m_var with
        | some v => R.var_shape v
        | Option.none => R.tensor_shape t1
      if shape.length = 0 then (t1, .ok PyObj.none)
      else (t1, .ok (PyObj.tuple (shape.map (fun d => PyObj.int (Int.ofNat d)))))

/-- The method `TensorWrapper::numpy`. -/
def TensorWrapper.numpy (F : FlagLayout) (R : Reads) (skip_tracing : Bool) (t : Tensor) :
    Tensor × Except Exc PyObj :=
  match (if !skip_tracing then TensorWrapper.set_value_read R t (PyObj.bool true)
         else (t, .ok ())) with
  | (t1, .error e) => (t1, .error e)
  | (t1, .ok _) =>
    match t1.m_handle, t1.m_var with
    | Option.none, some v =>
      if !R.infer_static v then (t1, .error tensor_invalid)
      else
        match R.infer_value_fallible v with
        | Option.none => (t1, .error tensor_invalid)
        | some val => (t1, .ok val)
    | h, _ =>
      match R.get_value h with
      | .error e => (t1, .error e)
      | .ok Option.none => (t1, .error tensor_invalid)
      | .ok (some arr) =>
        if hasFlag t1.m_flags F.SCALAR then (t1, .ok (R.squeeze arr))
        else (t1, .ok arr)

/-- The method `TensorWrapper::_dev_tensor`. -/
def TensorWrapper._dev_tensor (R : Reads) (skip_tracing : Bool) (t : Tensor) :
    Tensor × Except Exc PyObj :=
  match (if !skip_tracing then TensorWrapper.set_data_read R t (PyObj.bool true)
         else (t, .ok ())) with
  | (t1, .error e) => (t1, .error e)
  | (t1, .ok _) => (t1, R.get_dev_tensor t1.m_handle)

/-- The method `TensorWrapper::detach`: the new entity; the receiver is not changed. -/
def TensorWrapper.detach (t : Tensor) : Tensor :=
  let new_tensor : Tensor :=
    match t.m_handle with
    | some h => Tensor.ofHandle h
    | Option.none => Tensor.ofVar t.m_var
  { new_tensor with m_trace_info := t.m_trace_info }

/-- The operations on one entity of which sequences are considered. -/
inductive WrapperOp where
  | shape
  | numpy
  | dev_tensor
  | detach
  | set_data_read (dest : PyObj)
  | set_value_read (dest : PyObj)
  | set_shape_read (dest : PyObj)

/-- The entity after one operation on it. -/
def WrapperOp.step (F : FlagLayout) (R : Reads) (skip_tracing : Bool) (t : Tensor) :
    WrapperOp → Tensor
  | .shape => (TensorWrapper.shape F R skip_tracing t).1
  | .numpy => (TensorWrapper.numpy F R skip_tracing t).1
  | .dev_tensor => (TensorWrapper._dev_tensor R skip_tracing t).1
  | .detach => t
  | .set_data_read dest => (TensorWrapper.set_data_read R t dest).1
  | .set_value_read dest => (TensorWrapper.set_value_read R t dest).1
  | .set_shape_read dest => (TensorWrapper.set_shape_read R t dest).1

/-- The entity after a sequence of operations on it, first to last. -/
def run_ops (F : FlagLayout) (R : Reads) (skip_tracing : Bool) (ops : List WrapperOp)
    (t : Tensor) : Tensor :=
  ops.foldl (WrapperOp.step F R skip_tracing) t

/-- Whether an operation is a call of a property setter with a value that converts to
`false`. -/
def WrapperOp.assigns_false (R : Reads) : WrapperOp → Bool
  | .set_data_read dest | .set_value_read dest | .set_shape_read dest =>
    match cast_bool R dest with
    | .ok false => true
    | _ => false
  | _ => false

/-- Collaborators for the examples: every other object converts to `true`, every
shape is `[2, 3]`, every value is available. -/
def demo_reads : Reads :=
  { truth := fun _ => .ok true
    var_shape := fun _ => [2, 3]
    tensor_shape := fun _ => [2, 3]
    infer_static := fun _ => true
    infer_value_fallible := fun _ => some (PyObj.array (PyArray_DescrFromType .NPY_FLOAT32) Option.none)
    get_value := fun _ => .ok (some (PyObj.array (PyArray_DescrFromType .NPY_FLOAT32) Option.none))
    squeeze := fun o => o
    get_dev_tensor := fun _ => .ok (PyObj.object Option.none) }

/-! ## The constructor of `TensorWrapper`, host-array form -/

/-- The members of a `py::array` read by the constructor: `size()` and `ndim()`. -/
structure PyArray where
  size : Nat
  ndim : Nat
deriving DecidableEq, Repr

/-- The conversion method `npy::Meth` handed to `npy::np2tensor`: `borrow(cn)` or
`copy_into(&ret)` with `HostTensorND ret(cn)`. -/
inductive Meth where
  | borrow (cn : CompNode)
  | copy_into (cn : CompNode)
deriving DecidableEq, Repr

/-- The arguments of the 4- or 5-argument form after their casts (lines 230-234):
`no_cache` is `none` when only 4 arguments are given. -/
structure ArrayArgs where
  data : PyArray
  dtype : DType
  cn : CompNode
  is_const : Bool
  no_cache : Option Bool
deriving DecidableEq, Repr

/-- The type `HostTensorND` produced by `npy::np2tensor`, known by identity. -/
abbrev HostTensorND := Nat

/-- The collaborators of the constructor.

* `MAX_NDIM` is `TensorShape::MAX_NDIM`, declared outside the sources;
* `cpp_apply_const_with_tracing`, `cpp_apply_const_compiled_mode` are the registered
  Python callbacks; the value is element `0` of the list they return;
* `np2tensor` is `npy::np2tensor`; `put` is `interpreter_for_py->put`. -/
structure Admission where
  MAX_NDIM : Nat
  cpp_apply_const_with_tracing : ArrayArgs → Except Exc PyObj
  cpp_apply_const_compiled_mode : ArrayArgs → Except Exc PyObj
  np2tensor : PyArray → Meth → DType → Except Exc HostTensorND
  put : HostTensorND → Bool → Handle

/-- One invocation of a collaborator made by the constructor. -/
inductive CtorCall where
  | apply_const (compiled : Bool) (a : ArrayArgs)
  | np2tensor (data : PyArray) (meth : Meth) (dtype : DType)
  | put (value : HostTensorND) (no_cache : Bool)
deriving DecidableEq, Repr

/-- The branch of `TensorWrapper::TensorWrapper` for 4 or 5 arguments (lines 226-268),
on the arguments after their casts; `is_tracing` and `is_compiled` are the globals of
these names.  The result is `m_tensor` (`none` when it is left unset) or the exception
thrown, and the collaborators invoked, in order. -/
def TensorWrapper.from_array (F : FlagLayout) (A : Admission) (is_tracing is_compiled : Bool)
    (a : ArrayArgs) : Except Exc (Option Tensor) × List CtorCall :=
  let no_cache : Bool := match a.no_cache with
    | some b => b
    | Option.none => false
  if a.is_const && is_tracing then
    let pyf := if is_compiled then A.cpp_apply_const_compiled_mode
               else A.cpp_apply_const_with_tracing
    match pyf a with
    | .error e => (.error e, [CtorCall.apply_const is_compiled a])
    | .ok first => (.ok first.try_cast, [CtorCall.apply_const is_compiled a])
  else
    let size_threshhold := A.MAX_NDIM
    let meth := if a.data.size > size_threshhold then Meth.borrow a.cn
                else Meth.copy_into a.cn
    match A.np2tensor a.data meth a.dtype with
    | .error e => (.error e, [CtorCall.np2tensor a.data meth a.dtype])
    | .ok value =>
      let handle := A.put value no_cache
      let m_tensor := Tensor.ofHandle handle
      let m_tensor :=
        if a.data.ndim = 0 then { m_tensor with m_flags := m_tensor.m_flags ||| F.SCALAR }
        else m_tensor
      (.ok (some m_tensor),
        [CtorCall.np2tensor a.data meth a.dtype, CtorCall.put value no_cache])

/-- Collaborators for the examples: `MAX_NDIM` is `7`, conversion and admission always
succeed. -/
def demo_admission : Admission :=
  { MAX_NDIM := 7
    cpp_apply_const_with_tracing := fun _ => .ok PyObj.none
    cpp_apply_const_compiled_mode := fun _ => .ok PyObj.none
    np2tensor := fun data _ _ => .ok data.size
    put := fun v _ => v + 1000 }

/-- Arguments for the examples: an array of `size` elements and rank 1 on device `A`. -/
def demo_array_args (size : Nat) (no_cache : Option Bool) : ArrayArgs :=
  { data := { size := size, ndim := 1 }, dtype := { enumv := 0 },
    cn := { id := 1, name := "A" }, is_const := false, no_cache := no_cache }

/-- Every read flag of `a` that is set is set in `b`. -/
def reads_kept (a b : Tensor) : Prop :=
  (a.m_trace_info.data_read = true → b.m_trace_info.data_read = true) ∧
  (a.m_trace_info.value_read = true → b.m_trace_info.value_read = true) ∧
  (a.m_trace_info.shape_read = true → b.m_trace_info.shape_read = true)

/-! ## Flag words -/

theorem hasFlag_two_pow (x g : Nat) : hasFlag x (2 ^ g) = x.testBit g := by
  unfold hasFlag
  cases hb : x.testBit g
  · have h0 : x &&& 2 ^ g = 0 := by
      apply Nat.eq_of_testBit_eq
      intro i
      by_cases hi : g = i
      · subst hi; simp [hb]
      · simp [Nat.testBit_two_pow, hi]
    simp [h0]
  · have h1 : x &&& 2 ^ g ≠ 0 := by
      intro h0
      have h2 := congrArg (fun n => n.testBit g) h0
      simp [Nat.testBit_two_pow, hb] at h2
    simp [h1]

theorem testBit_bitNot (w d g : Nat) :
    (bitNot w d).testBit g = (decide (g < w) && !d.testBit g) := by
  unfold bitNot
  rw [Nat.testBit_xor, Nat.testBit_two_pow_sub_one, Nat.testBit_mod_two_pow]
  by_cases hg : g < w <;> simp [hg]

theorem hasFlag_masked (f w d g : Nat) :
    hasFlag (f &&& bitNot w d) (2 ^ g) = (f.testBit g && (decide (g < w) && !d.testBit g)) := by
  rw [hasFlag_two_pow, Nat.testBit_and, testBit_bitNot]

theorem effective_grad (F : FlagLayout) (env : Env) (ctx : ApplyContext) :
    hasFlag (effective_flags F env ctx) F.GRAD
      = (hasFlag ctx.flags F.GRAD && !hasFlag env.global_disable F.GRAD) := by
  unfold effective_flags FlagLayout.GRAD
  rw [hasFlag_masked, hasFlag_two_pow, hasFlag_two_pow]
  simp [F.grad_lt]

theorem effective_trace (F : FlagLayout) (env : Env) (ctx : ApplyContext) :
    hasFlag (effective_flags F env ctx) F.TRACE
      = (hasFlag ctx.flags F.TRACE && !hasFlag env.global_disable F.TRACE) := by
  unfold effective_flags FlagLayout.TRACE
  rw [hasFlag_masked, hasFlag_two_pow, hasFlag_two_pow]
  simp [F.trace_lt]

/-! ## The router: which collaborator is invoked -/

theorem apply_of_grad (F : FlagLayout) (env : Env) (ctx : ApplyContext)
    (h : hasFlag (effective_flags F env ctx) F.GRAD = true) :
    apply F env ctx = { result := env.apply_grad ctx, calls := [Call.apply_grad ctx] } := by
  unfold apply
  simp [h]

theorem apply_generic_calls (F : FlagLayout) (env : Env) (ctx : ApplyContext) (obj : Nat)
    (h : hasFlag (effective_flags F env ctx) F.GRAD = false)
    (hop : ctx.op = OpDef.GenericPyOp obj) :
    (apply F env ctx).calls =
      match env.default_rule obj with
      | .error _ => []
      | .ok _ => [Call.default_rule obj (wrap_args ctx)] := by
  unfold apply
  simp only [h, hop]
  cases env.default_rule obj with
  | error e => simp
  | ok f =>
    cases hf : f (wrap_args ctx) <;> simp [hf]

theorem apply_generic_result (F : FlagLayout) (env : Env) (ctx : ApplyContext) (obj : Nat)
    (f : List PyObj → Except Exc PyObj) (pyout : PyObj)
    (h : hasFlag (effective_flags F env ctx) F.GRAD = false)
    (hop : ctx.op = OpDef.GenericPyOp obj)
    (hf : env.default_rule obj = .ok f) (hout : f (wrap_args ctx) = .ok pyout) :
    (apply F env ctx).result = unwrap_pyout env.len_error pyout := by
  unfold apply
  simp [h, hop, hf, hout]

theorem apply_of_trace (F : FlagLayout) (env : Env) (ctx : ApplyContext) (id : Nat)
    (h : hasFlag (effective_flags F env ctx) F.GRAD = false)
    (hop : ctx.op = OpDef.other id)
    (ht : hasFlag (effective_flags F env ctx) F.TRACE = true) :
    apply F env ctx = { result := env.apply_trace ctx, calls := [Call.apply_trace ctx] } := by
  unfold apply
  simp [h, hop, ht]

theorem apply_default_calls (F : FlagLayout) (env : Env) (ctx : ApplyContext) (id : Nat)
    (h : hasFlag (effective_flags F env ctx) F.GRAD = false)
    (hop : ctx.op = OpDef.other id)
    (ht : hasFlag (effective_flags F env ctx) F.TRACE = false) :
    (apply F env ctx).calls = [Call.apply_op ctx.op (ctx.args.map (fun t => t.m_handle))] := by
  unfold apply
  simp only [h, hop, ht]
  cases hr : env.apply_op (OpDef.other id) (ctx.args.map (fun t => t.m_handle)) <;> simp [hr]

theorem apply_default_result (F : FlagLayout) (env : Env) (ctx : ApplyContext) (id : Nat)
    (h : hasFlag (effective_flags F env ctx) F.GRAD = false)
    (hop : ctx.op = OpDef.other id)
    (ht : hasFlag (effective_flags F env ctx) F.TRACE = false) :
    (apply F env ctx).result =
      match env.apply_op ctx.op (ctx.args.map (fun t => t.m_handle)) with
      | .error e => .error e
      | .ok output_handles => .ok (output_handles.map Tensor.ofHandle) := by
  unfold apply
  simp only [h, hop, ht]
  cases hr : env.apply_op (OpDef.other id) (ctx.args.map (fun t => t.m_handle)) <;> simp [hr]

theorem apply_no_grad_call (F : FlagLayout) (env : Env) (ctx : ApplyContext)
    (h : hasFlag (effective_flags F env ctx) F.GRAD = false) :
    (apply F env ctx).calls.any Call.is_grad = false := by
  cases hop : ctx.op with
  | GenericPyOp obj =>
    rw [apply_generic_calls F env ctx obj h hop]
    cases env.default_rule obj <;> simp [Call.is_grad, Call.route]
  | other id =>
    cases ht : hasFlag (effective_flags F env ctx) F.TRACE
    · rw [apply_default_calls F env ctx id h hop ht]
      simp [Call.is_grad, Call.route]
    · rw [apply_of_trace F env ctx id h hop ht]
      simp [Call.is_grad, Call.route]

theorem apply_no_trace_call (F : FlagLayout) (env : Env) (ctx : ApplyContext)
    (h : hasFlag (effective_flags F env ctx) F.TRACE = false) :
    (apply F env ctx).calls.any Call.is_trace = false := by
  cases hg : hasFlag (effective_flags F env ctx) F.GRAD
  · cases hop : ctx.op with
    | GenericPyOp obj =>
      rw [apply_generic_calls F env ctx obj hg hop]
      cases env.default_rule obj <;> simp [Call.is_trace, Call.route]
    | other id =>
      rw [apply_default_calls F env ctx id hg hop h]
      simp [Call.is_trace, Call.route]
  · rw [apply_of_grad F env ctx hg]
    simp [Call.is_trace, Call.route]

/-- C1: a context whose flags contain both REQUIRES_GRAD and TRACE, neither bit being
in the globally-disabled mask, is handed to the gradient tape whatever the operator
is: `apply` returns the result of `apply_grad` on the original context, and that is
the only collaborator it invokes (no trace recorder, no default rule, no `apply_op`). -/
theorem apply_grad_and_trace_routes_to_grad (F : FlagLayout) (env : Env) (ctx : ApplyContext)
    (hg : hasFlag ctx.flags F.GRAD = true) (ht : hasFlag ctx.flags F.TRACE = true)
    (hdg : hasFlag env.global_disable F.GRAD = false)
    (hdt : hasFlag env.global_disable F.TRACE = false) :
    (apply F env ctx).result = env.apply_grad ctx ∧
    (apply F env ctx).calls = [Call.apply_grad ctx] ∧
    (apply F env ctx).calls.any Call.is_trace = false ∧
    (apply F env ctx).calls.any Call.is_rule = false ∧
    (apply F env ctx).calls.any Call.is_channel = false := by
  have he : hasFlag (effective_flags F env ctx) F.GRAD = true := by
    rw [effective_grad, hg, hdg]; rfl
  have _htrace : hasFlag (effective_flags F env ctx) F.TRACE = true := by
    rw [effective_trace, ht, hdt]; rfl
  rw [apply_of_grad F env ctx he]
  simp [Call.is_trace, Call.is_rule, Call.is_channel, Call.route]

/-- C1 at a concrete input: flags `GRAD | TRACE` (6), nothing disabled, a builtin
operator. -/
theorem apply_grad_and_trace_routes_to_grad_witness :
    hasFlag (demo_ctx 6 (OpDef.other 0) (Tensor.ofHandle 1)).flags FlagLayout.std.GRAD = true ∧
    hasFlag (demo_ctx 6 (OpDef.other 0) (Tensor.ofHandle 1)).flags FlagLayout.std.TRACE = true ∧
    (apply FlagLayout.std (demo_env 0 []) (demo_ctx 6 (OpDef.other 0) (Tensor.ofHandle 1))).calls
      = [Call.apply_grad (demo_ctx 6 (OpDef.other 0) (Tensor.ofHandle 1))] :=
  ⟨by decide, by decide,
   (apply_grad_and_trace_routes_to_grad FlagLayout.std (demo_env 0 [])
      (demo_ctx 6 (OpDef.other 0) (Tensor.ofHandle 1))
      (by decide) (by decide) (by decide) (by decide)).2.1⟩

/-- C2: `apply` invokes the gradient tape exactly when the masked word
`ctx.flags & ~global_disable` contains REQUIRES_GRAD, and then it returns the tape's
result on the original context.  A REQUIRES_GRAD bit that is in the globally-disabled
mask never leads to the tape, and a TRACE bit that is in the mask never leads to the
trace recorder, whatever the context's own flags are. -/
theorem apply_grad_iff_masked_flag (F : FlagLayout) (env : Env) (ctx : ApplyContext) :
    ((apply F env ctx).calls.any Call.is_grad
        = hasFlag (ctx.flags &&& bitNot F.width env.global_disable) F.GRAD) ∧
    (hasFlag (ctx.flags &&& bitNot F.width env.global_disable) F.GRAD = true →
        apply F env ctx = { result := env.apply_grad ctx, calls := [Call.apply_grad ctx] }) ∧
    (hasFlag env.global_disable F.GRAD = true →
        (apply F env ctx).calls.any Call.is_grad = false) ∧
    (hasFlag env.global_disable F.TRACE = true →
        (apply F env ctx).calls.any Call.is_trace = false) := by
  refine ⟨?_, ?_, ?_, ?_⟩
  · cases h : hasFlag (effective_flags F env ctx) F.GRAD
    · have h2 := apply_no_grad_call F env ctx h
      unfold effective_flags at h
      rw [h2, h]
    · rw [apply_of_grad F env ctx h]
      unfold effective_flags at h
      rw [h]
      simp [Call.is_grad, Call.route]
  · intro h
    exact apply_of_grad F env ctx h
  · intro hd
    apply apply_no_grad_call
    rw [effective_grad, hd]
    simp
  · intro hd
    apply apply_no_trace_call
    rw [effective_trace, hd]
    simp

/-- C2 at a concrete input: GRAD set on the context (flags 2) and disabled globally
(mask 2): the call goes to the channel, not to the tape. -/
theorem apply_grad_iff_masked_flag_witness :
    hasFlag (2 &&& bitNot FlagLayout.std.width 2) FlagLayout.std.GRAD = false ∧
    (apply FlagLayout.std (demo_env 2 []) (demo_ctx 2 (OpDef.other 0) (Tensor.ofHandle 1))).calls.any
      Call.is_grad = false :=
  ⟨by decide,
   (apply_grad_iff_masked_flag FlagLayout.std (demo_env 2 [])
      (demo_ctx 2 (OpDef.other 0) (Tensor.ofHandle 1))).2.2.1 (by decide)⟩

theorem effective_flags_xor_scalar (F : FlagLayout) (env : Env) (ctx : ApplyContext) :
    hasFlag (effective_flags F env { ctx with flags := ctx.flags ^^^ F.SCALAR }) F.GRAD
        = hasFlag (effective_flags F env ctx) F.GRAD ∧
    hasFlag (effective_flags F env { ctx with flags := ctx.flags ^^^ F.SCALAR }) F.TRACE
        = hasFlag (effective_flags F env ctx) F.TRACE := by
  unfold effective_flags FlagLayout.GRAD FlagLayout.TRACE FlagLayout.SCALAR
  simp only [hasFlag_masked, Nat.testBit_xor, Nat.testBit_two_pow]
  simp [F.scalar_ne_grad, F.scalar_ne_trace]

theorem apply_routes_of_flags (F : FlagLayout) (env : Env) (ctx ctx2 : ApplyContext)
    (hop : ctx2.op = ctx.op)
    (hg : hasFlag (effective_flags F env ctx2) F.GRAD
            = hasFlag (effective_flags F env ctx) F.GRAD)
    (ht : hasFlag (effective_flags F env ctx2) F.TRACE
            = hasFlag (effective_flags F env ctx) F.TRACE) :
    (apply F env ctx2).calls.map Call.route = (apply F env ctx).calls.map Call.route := by
  cases h : hasFlag (effective_flags F env ctx) F.GRAD
  · have h2 := hg.trans h
    cases ho : ctx.op with
    | GenericPyOp obj =>
      rw [apply_generic_calls F env ctx obj h ho,
        apply_generic_calls F env ctx2 obj h2 (hop.trans ho)]
      cases env.default_rule obj <;> simp [Call.route]
    | other id =>
      cases htr : hasFlag (effective_flags F env ctx) F.TRACE
      · rw [apply_default_calls F env ctx id h ho htr,
          apply_default_calls F env ctx2 id h2 (hop.trans ho) (ht.trans htr)]
        simp [Call.route]
      · rw [apply_of_trace F env ctx id h ho htr,
          apply_of_trace F env ctx2 id h2 (hop.trans ho) (ht.trans htr)]
        simp [Call.route]
  · rw [apply_of_grad F env ctx h, apply_of_grad F env ctx2 (hg.trans h)]
    simp [Call.route]

/-- C3, the claim as written fails: with SCALAR and REQUIRES_GRAD set on the context
(flags 3) and REQUIRES_GRAD in the globally-disabled mask (mask 2), the effective
flags contain SCALAR, yet the call is not routed to the gradient tape: the one
collaborator invoked is the channel's `apply_op`. -/
theorem apply_scalar_unmasked_counterexample :
    hasFlag (effective_flags FlagLayout.std (demo_env 2 [])
      (demo_ctx 3 (OpDef.other 0) (Tensor.ofHandle 1))) FlagLayout.std.SCALAR = true ∧
    hasFlag (demo_ctx 3 (OpDef.other 0) (Tensor.ofHandle 1)).flags FlagLayout.std.GRAD = true ∧
    hasFlag (demo_env 2 []).global_disable FlagLayout.std.GRAD = true ∧
    (apply FlagLayout.std (demo_env 2 []) (demo_ctx 3 (OpDef.other 0) (Tensor.ofHandle 1))).calls
      = [Call.apply_op (OpDef.other 0) [some 1]] ∧
    (apply FlagLayout.std (demo_env 2 [])
      (demo_ctx 3 (OpDef.other 0) (Tensor.ofHandle 1))).calls.any Call.is_grad = false := by
  refine ⟨by decide, by decide, by decide, ?_, ?_⟩
  · rfl
  · rfl

/-- C3 as amended: for a context whose effective (masked) flags include SCALAR, the
SCALAR bit makes no routing decision (clearing it on the context leaves the sequence
of collaborators invoked unchanged), and the GRAD and TRACE checks are made on the
same masked flags: a REQUIRES_GRAD bit in the globally-disabled mask never leads to
the gradient tape, a TRACE bit in the mask never to the trace recorder. -/
theorem apply_scalar_inert_checks_masked (F : FlagLayout) (env : Env) (ctx : ApplyContext)
    (hs : hasFlag (ctx.flags &&& bitNot F.width env.global_disable) F.SCALAR = true) :
    ((apply F env { ctx with flags := ctx.flags ^^^ F.SCALAR }).calls.map Call.route
        = (apply F env ctx).calls.map Call.route) ∧
    hasFlag { ctx with flags := ctx.flags ^^^ F.SCALAR }.flags F.SCALAR = false ∧
    ((apply F env ctx).calls.any Call.is_grad
        = hasFlag (ctx.flags &&& bitNot F.width env.global_disable) F.GRAD) ∧
    (hasFlag env.global_disable F.GRAD = true →
        (apply F env ctx).calls.any Call.is_grad = false) ∧
    (hasFlag env.global_disable F.TRACE = true →
        (apply F env ctx).calls.any Call.is_trace = false) := by
  have hx := effective_flags_xor_scalar F env ctx
  refine ⟨apply_routes_of_flags F env ctx _ rfl hx.1 hx.2, ?_, ?_, ?_, ?_⟩
  · unfold FlagLayout.SCALAR at hs ⊢
    rw [hasFlag_masked] at hs
    rw [hasFlag_two_pow]
    simp only [Nat.testBit_xor, Nat.testBit_two_pow]
    simp only [Bool.and_eq_true] at hs
    simp [hs.1]
  · cases h : hasFlag (effective_flags F env ctx) F.GRAD
    · have h2 := apply_no_grad_call F env ctx h
      unfold effective_flags at h
      rw [h2, h]
    · rw [apply_of_grad F env ctx h]
      unfold effective_flags at h
      rw [h]
      simp [Call.is_grad, Call.route]
  · intro hd
    apply apply_no_grad_call
    rw [effective_grad, hd]
    simp
  · intro hd
    apply apply_no_trace_call
    rw [effective_trace, hd]
    simp

/-- C3 as amended, at the input of the counterexample. -/
theorem apply_scalar_inert_checks_masked_witness :
    hasFlag (3 &&& bitNot FlagLayout.std.width 2) FlagLayout.std.SCALAR = true ∧
    (apply FlagLayout.std (demo_env 2 []) (demo_ctx 3 (OpDef.other 0) (Tensor.ofHandle 1))).calls.any
      Call.is_grad = false :=
  ⟨by decide,
   (apply_scalar_inert_checks_masked FlagLayout.std (demo_env 2 [])
      (demo_ctx 3 (OpDef.other 0) (Tensor.ofHandle 1)) (by decide)).2.2.2.1 (by decide)⟩

/-! ## The router: the generic user-rule path -/

theorem unwrap_seq_tensors (ts : List (PyType × Tensor)) (ret : apply_result_t) :
    unwrap_seq (ts.map (fun pt => PyObj.tensor pt.1 pt.2)) ret
      = .ok (ret ++ ts.map (fun pt => pt.2)) := by
  induction ts generalizing ret with
  | nil => simp [unwrap_seq]
  | cons pt rest ih =>
    simp only [List.map_cons, unwrap_seq, PyObj.try_cast]
    rw [ih]
    simp

theorem unwrap_seq_bad (xs : List PyObj) (ret : apply_result_t)
    (h : ∃ x ∈ xs, x.try_cast = Option.none) :
    unwrap_seq xs ret = .error { kind := .AssertionError, what := "tw" } := by
  induction xs generalizing ret with
  | nil => simp at h
  | cons x rest ih =>
    unfold unwrap_seq
    cases hx : x.try_cast with
    | none => rfl
    | some t =>
      simp only
      apply ih
      obtain ⟨y, hy, hyn⟩ := h
      rcases List.mem_cons.mp hy with rfl | hmem
      · rw [hx] at hyn; cases hyn
      · exact ⟨y, hmem, hyn⟩

/-- C4: when the effective flags do not contain REQUIRES_GRAD and the operator is a
generic user-rule operator, `apply` invokes neither the trace recorder nor the
channel's `apply_op` (nor the tape), also when the effective flags contain TRACE.
When the operator object has its `_default_rule`, that rule is the one collaborator
invoked, with one wrapper per operand in operand order, and `apply` returns the
unwrapped result: the entity of a single wrapper, or the entities of a sequence of
wrappers in order. -/
theorem apply_generic_invokes_default_rule (F : FlagLayout) (env : Env) (ctx : ApplyContext)
    (obj : Nat)
    (hg : hasFlag (ctx.flags &&& bitNot F.width env.global_disable) F.GRAD = false)
    (hop : ctx.op = OpDef.GenericPyOp obj) :
    (apply F env ctx).calls.any Call.is_trace = false ∧
    (apply F env ctx).calls.any Call.is_channel = false ∧
    (apply F env ctx).calls.any Call.is_grad = false ∧
    (∀ f, env.default_rule obj = .ok f →
      (apply F env ctx).calls
          = [Call.default_rule obj (ctx.args.map (fun t => PyObj.tensor ctx.pytype t))] ∧
      (∀ p t, f (ctx.args.map (fun t => PyObj.tensor ctx.pytype t)) = .ok (PyObj.tensor p t) →
          (apply F env ctx).result = .ok [t]) ∧
      (∀ pyout (ts : List (PyType × Tensor)),
          f (ctx.args.map (fun t => PyObj.tensor ctx.pytype t)) = .ok pyout →
          pyout.try_cast = Option.none →
          pyout.items = some (ts.map (fun pt => PyObj.tensor pt.1 pt.2)) →
          (apply F env ctx).result = .ok (ts.map (fun pt => pt.2)))) := by
  have hcalls := apply_generic_calls F env ctx obj hg hop
  refine ⟨?_, ?_, ?_, ?_⟩
  · rw [hcalls]; cases env.default_rule obj <;> simp [Call.is_trace, Call.route]
  · rw [hcalls]; cases env.default_rule obj <;> simp [Call.is_channel, Call.route]
  · rw [hcalls]; cases env.default_rule obj <;> simp [Call.is_grad, Call.route]
  · intro f hf
    refine ⟨?_, ?_, ?_⟩
    · rw [hcalls, hf]; rfl
    · intro p t hout
      rw [apply_generic_result F env ctx obj f _ hg hop hf hout]
      simp [unwrap_pyout, PyObj.try_cast]
    · intro pyout ts hout hcast hitems
      rw [apply_generic_result F env ctx obj f _ hg hop hf hout]
      unfold unwrap_pyout
      rw [hcast, hitems]
      simp only
      rw [unwrap_seq_tensors]
      simp

/-- C4 at a concrete input: a generic operator under TRACE (flags 4) whose rule
returns the tuple of its arguments. -/
theorem apply_generic_invokes_default_rule_witness :
    hasFlag (4 &&& bitNot FlagLayout.std.width 0) FlagLayout.std.TRACE = true ∧
    (apply FlagLayout.std (demo_env 0 [])
      (demo_ctx 4 (OpDef.GenericPyOp 9) (Tensor.ofHandle 1))).calls.any Call.is_trace = false ∧
    (apply FlagLayout.std (demo_env 0 [])
      (demo_ctx 4 (OpDef.GenericPyOp 9) (Tensor.ofHandle 1))).result = .ok [Tensor.ofHandle 1] :=
  ⟨by decide,
   (apply_generic_invokes_default_rule FlagLayout.std (demo_env 0 [])
      (demo_ctx 4 (OpDef.GenericPyOp 9) (Tensor.ofHandle 1)) 9 (by decide) rfl).1,
   ((apply_generic_invokes_default_rule FlagLayout.std (demo_env 0 [])
      (demo_ctx 4 (OpDef.GenericPyOp 9) (Tensor.ofHandle 1)) 9 (by decide) rfl).2.2.2
      _ rfl).2.2 _ [(1, Tensor.ofHandle 1)] rfl rfl rfl⟩

/-- C5, the claim as written fails: a rule returning the tuple `(x, None)`, a
sequence with an element that is not a wrapped entity, makes `apply` fail with the
assertion failure of `mgb_assert(tw)`, not with `TypeError`; `py_apply` reports it as
`RuntimeError`. -/
theorem apply_generic_bad_element_counterexample :
    (apply FlagLayout.std (demo_env 0 [PyObj.none])
      (demo_ctx 0 (OpDef.GenericPyOp 9) (Tensor.ofHandle 1))).result
        = .error { kind := ExcKind.AssertionError, what := "tw" } ∧
    ExcKind.AssertionError ≠ ExcKind.TypeError ∧
    (py_apply FlagLayout.std (demo_env 0 [PyObj.none]) false
      [PyObj.opdef false (OpDef.GenericPyOp 9), PyObj.tensor 1 (Tensor.ofHandle 1)]).1
        = .error { kind := ExcKind.RuntimeError, what := "tw" } := by
  refine ⟨rfl, by decide, rfl⟩

/-- C5 as amended: on the generic user-rule path, if the rule's return value is
neither a single wrapped Tensor Entity nor a sequence all of whose elements are
wrapped Tensor Entities, `apply` fails and returns no entities: with the assertion
failure of `mgb_assert` when the value is a sequence with an element that is not a
wrapped entity, and with the exception of the host's `len()` when the value has no
length. -/
theorem apply_generic_bad_return_fails (F : FlagLayout) (env : Env) (ctx : ApplyContext)
    (obj : Nat) (f : List PyObj → Except Exc PyObj) (pyout : PyObj)
    (hg : hasFlag (ctx.flags &&& bitNot F.width env.global_disable) F.GRAD = false)
    (hop : ctx.op = OpDef.GenericPyOp obj)
    (hf : env.default_rule obj = .ok f)
    (hout : f (ctx.args.map (fun t => PyObj.tensor ctx.pytype t)) = .ok pyout)
    (hsingle : pyout.try_cast = Option.none)
    (hseq : ∀ xs, pyout.items = some xs → ∃ x ∈ xs, x.try_cast = Option.none) :
    ∃ e, (apply F env ctx).result = .error e ∧
      (pyout.items = Option.none → e = env.len_error) ∧
      (pyout.items ≠ Option.none → e.kind = ExcKind.AssertionError) := by
  rw [apply_generic_result F env ctx obj f pyout hg hop hf hout]
  unfold unwrap_pyout
  rw [hsingle]
  cases hitems : pyout.items with
  | none => exact ⟨_, rfl, ⟨fun _ => rfl, fun h => absurd rfl h⟩⟩
  | some xs =>
    simp only
    rw [unwrap_seq_bad xs [] (hseq xs hitems)]
    exact ⟨_, rfl, ⟨fun h => Option.noConfusion h, fun _ => rfl⟩⟩

/-- C5 as amended, at the input of the counterexample. -/
theorem apply_generic_bad_return_fails_witness :
    ∃ e, (apply FlagLayout.std (demo_env 0 [PyObj.none])
      (demo_ctx 0 (OpDef.GenericPyOp 9) (Tensor.ofHandle 1))).result = .error e ∧
      e.kind = ExcKind.AssertionError := by
  obtain ⟨e, he, _, h2⟩ := apply_generic_bad_return_fails FlagLayout.std
    (demo_env 0 [PyObj.none]) (demo_ctx 0 (OpDef.GenericPyOp 9) (Tensor.ofHandle 1)) 9
    (fun pyin => .ok (PyObj.tuple (pyin ++ [PyObj.none])))
    (PyObj.tuple [PyObj.tensor 1 (Tensor.ofHandle 1), PyObj.none])
    (by decide) rfl rfl rfl rfl
    (fun xs hxs => by
      cases hxs
      exact ⟨PyObj.none, by simp, rfl⟩)
  exact ⟨e, he, h2 (by simp [PyObj.items])⟩

/-! ## The router: the default path -/

/-- C6, the claim as written fails: on the default path (no flags, builtin operator)
with an operand that has no channel handle, `apply` performs no check of its own: it
calls `apply_op` with the null handle, and the failure observed is the one the
channel raises. -/
theorem apply_default_null_handle_counterexample :
    var_tensor.m_handle = Option.none ∧
    (apply FlagLayout.std (demo_env 0 []) (demo_ctx 0 (OpDef.other 0) var_tensor)).calls
      = [Call.apply_op (OpDef.other 0) [Option.none]] ∧
    (apply FlagLayout.std (demo_env 0 []) (demo_ctx 0 (OpDef.other 0) var_tensor)).calls.any
      Call.is_channel = true ∧
    (apply FlagLayout.std (demo_env 0 []) (demo_ctx 0 (OpDef.other 0) var_tensor)).result
      = .error { kind := ExcKind.AssertionError, what := "invalid handle" } ∧
    demo_apply_op (OpDef.other 0) [Option.none]
      = .error { kind := ExcKind.AssertionError, what := "invalid handle" } := by
  refine ⟨rfl, rfl, rfl, rfl, rfl⟩

/-- C6 as amended: on the default path (effective flags without REQUIRES_GRAD and
TRACE, operator not generic) `apply` makes no handle check of its own: it calls
`apply_op` exactly once with the handle pointer of every operand, absent ones
included, in operand order; a failure can only be one raised by `apply_op`, which
`apply` passes on unchanged, and otherwise it returns one fresh entity per returned
handle. -/
theorem apply_default_submits_all_handles (F : FlagLayout) (env : Env) (ctx : ApplyContext)
    (id : Nat)
    (hg : hasFlag (ctx.flags &&& bitNot F.width env.global_disable) F.GRAD = false)
    (ht : hasFlag (ctx.flags &&& bitNot F.width env.global_disable) F.TRACE = false)
    (hop : ctx.op = OpDef.other id) :
    (apply F env ctx).calls = [Call.apply_op ctx.op (ctx.args.map (fun t => t.m_handle))] ∧
    (∀ e, (apply F env ctx).result = .error e ↔
        env.apply_op ctx.op (ctx.args.map (fun t => t.m_handle)) = .error e) ∧
    (∀ hs, env.apply_op ctx.op (ctx.args.map (fun t => t.m_handle)) = .ok hs →
        (apply F env ctx).result = .ok (hs.map Tensor.ofHandle)) := by
  refine ⟨apply_default_calls F env ctx id hg hop ht, ?_, ?_⟩
  · intro e
    rw [apply_default_result F env ctx id hg hop ht]
    cases env.apply_op ctx.op (ctx.args.map (fun t => t.m_handle)) <;> simp
  · intro hs h
    rw [apply_default_result F env ctx id hg hop ht, h]

/-- C6 as amended, at the input of the counterexample. -/
theorem apply_default_submits_all_handles_witness :
    (apply FlagLayout.std (demo_env 0 []) (demo_ctx 0 (OpDef.other 0) var_tensor)).calls
      = [Call.apply_op (OpDef.other 0) [Option.none]] :=
  (apply_default_submits_all_handles FlagLayout.std (demo_env 0 [])
    (demo_ctx 0 (OpDef.other 0) var_tensor) 0 (by decide) (by decide) rfl).1

/-! ## The dtype resolver -/

theorem collect_descrs_eq (H : Host) (xs : List PyObj) (tensors scalars : List PyArray_Descr) :
    collect_descrs H xs tensors scalars
      = (tensors ++ tensor_sourced H xs, scalars ++ scalar_sourced xs) := by
  induction xs generalizing tensors scalars with
  | nil => simp [collect_descrs, tensor_sourced, scalar_sourced]
  | cons x rest ih =>
    cases x <;>
      simp [collect_descrs, ih, tensor_sourced, scalar_sourced, tensor_descr, scalar2dtype,
        List.filterMap_cons]

theorem foldl_max_ge_init (l : List PyArray_Descr) (init : Nat) :
    init ≤ l.foldl (fun max_p desc => max max_p (category_priority desc.kind)) init := by
  induction l generalizing init with
  | nil => simp
  | cons d rest ih =>
    simp only [List.foldl_cons]
    exact le_trans (le_max_left _ _) (ih _)

theorem foldl_max_ge_mem (l : List PyArray_Descr) (init : Nat) :
    ∀ d ∈ l, category_priority d.kind
      ≤ l.foldl (fun max_p desc => max max_p (category_priority desc.kind)) init := by
  induction l generalizing init with
  | nil => simp
  | cons d rest ih =>
    intro x hx
    simp only [List.foldl_cons]
    rcases List.mem_cons.mp hx with rfl | hmem
    · exact le_trans (le_max_right _ _) (foldl_max_ge_init rest _)
    · exact ih _ x hmem

theorem foldl_max_attained (l : List PyArray_Descr) (init : Nat) :
    l.foldl (fun max_p desc => max max_p (category_priority desc.kind)) init = init ∨
    ∃ d ∈ l, category_priority d.kind
      = l.foldl (fun max_p desc => max max_p (category_priority desc.kind)) init := by
  induction l generalizing init with
  | nil => simp
  | cons d rest ih =>
    simp only [List.foldl_cons]
    rcases ih (max init (category_priority d.kind)) with h | ⟨x, hx, hxe⟩
    · rw [h]
      rcases le_total init (category_priority d.kind) with hle | hle
      · right
        exact ⟨d, List.mem_cons_self _ _, by rw [max_eq_right hle]⟩
      · left
        exact max_eq_left hle
    · right
      exact ⟨x, List.mem_cons_of_mem _ hx, hxe⟩

theorem max_priority_eq_foldl (l : List PyArray_Descr) :
    max_priority l = l.foldl (fun max_p desc => max max_p (category_priority desc.kind)) 0 := by
  unfold max_priority
  cases l <;> simp

theorem max_priority_ge (l : List PyArray_Descr) :
    ∀ d ∈ l, category_priority d.kind ≤ max_priority l := by
  rw [max_priority_eq_foldl]
  exact foldl_max_ge_mem l 0

theorem max_priority_eq_zero_iff (l : List PyArray_Descr) :
    max_priority l = 0 ↔ ∀ d ∈ l, category_priority d.kind = 0 := by
  constructor
  · intro h d hd
    have := max_priority_ge l d hd
    omega
  · intro h
    rw [max_priority_eq_foldl]
    rcases foldl_max_attained l 0 with h0 | ⟨d, hd, hde⟩
    · exact h0
    · rw [← hde]; exact h d hd

theorem in_category_max_ne_nil (l : List PyArray_Descr) (h : 0 < max_priority l) :
    ∃ first rest, in_category l (max_priority l) = first :: rest := by
  have hatt : ∃ d ∈ l, category_priority d.kind = max_priority l := by
    rw [max_priority_eq_foldl] at h ⊢
    rcases foldl_max_attained l 0 with h0 | hex
    · omega
    · exact hex
  obtain ⟨d, hd, hde⟩ := hatt
  have hmem : d ∈ in_category l (max_priority l) := by
    unfold in_category
    simp [List.mem_filter, hd, hde]
  cases hc : in_category l (max_priority l) with
  | nil => rw [hc] at hmem; cases hmem
  | cons first rest => exact ⟨first, rest, rfl⟩

theorem promote_types_of_cons (promote : PyArray_Descr → PyArray_Descr → PyArray_Descr)
    (l : List PyArray_Descr) (cat : Nat) (first : PyArray_Descr) (rest : List PyArray_Descr)
    (h : in_category l cat = first :: rest) :
    promote_types promote l cat = .ok (rest.foldl (fun res used => promote used res) first) := by
  unfold in_category at h
  unfold promote_types
  simp only [h]

theorem dtype_promotion_res_unfold (H : Host) (args : List PyObj) :
    dtype_promotion_res H args =
      if max_priority (scalar_sourced (flatten_args args)) ≤ 0 ∧
          max_priority (tensor_sourced H (flatten_args args)) ≤ 0 then
        .error { kind := .ValueError, what := no_dtype_msg }
      else if max_priority (scalar_sourced (flatten_args args))
          > max_priority (tensor_sourced H (flatten_args args)) then
        promote_types H.PyArray_PromoteTypes (scalar_sourced (flatten_args args))
          (max_priority (scalar_sourced (flatten_args args)))
      else
        promote_types H.PyArray_PromoteTypes (tensor_sourced H (flatten_args args))
          (max_priority (tensor_sourced H (flatten_args args))) := by
  unfold dtype_promotion_res
  simp only [collect_descrs_eq, List.nil_append]

/-- What lines 526-578 compute: the promotion of the scalar-sourced descriptors of the
top scalar category when the maximum scalar category is strictly greater than the
maximum tensor category, and in every other case, a tie included, the promotion of
the tensor-sourced descriptors of the top tensor category. -/
theorem dtype_promotion_res_rule (H : Host) (args : List PyObj) :
    (max_priority (tensor_sourced H (flatten_args args))
        < max_priority (scalar_sourced (flatten_args args)) →
      ∃ first rest,
        in_category (scalar_sourced (flatten_args args))
          (max_priority (scalar_sourced (flatten_args args))) = first :: rest ∧
        dtype_promotion_res H args
          = .ok (rest.foldl (fun res used => H.PyArray_PromoteTypes used res) first)) ∧
    (¬ max_priority (tensor_sourced H (flatten_args args))
        < max_priority (scalar_sourced (flatten_args args)) →
      (∀ d, dtype_promotion_res H args = .ok d →
        ∃ first rest,
          in_category (tensor_sourced H (flatten_args args))
            (max_priority (tensor_sourced H (flatten_args args))) = first :: rest ∧
          d = rest.foldl (fun res used => H.PyArray_PromoteTypes used res) first) ∧
      (0 < max_priority (tensor_sourced H (flatten_args args)) →
        ∃ d, dtype_promotion_res H args = .ok d)) ∧
    (∀ p t, H.dtype_mgb2np_descr (H.tensor_dtype t) = PyArray_DescrFromType .NPY_INT32 →
      dtype_promotion_res H [PyObj.tensor p t, PyObj.float]
        = .ok (PyArray_DescrFromType .NPY_FLOAT32)) ∧
    (∀ p t v, H.dtype_mgb2np_descr (H.tensor_dtype t) = PyArray_DescrFromType .NPY_FLOAT32 →
      dtype_promotion_res H [PyObj.tensor p t, PyObj.int v]
        = .ok (H.dtype_mgb2np_descr (H.tensor_dtype t))) := by
  refine ⟨?_, ?_, ?_, ?_⟩
  · intro hlt
    have hpos : 0 < max_priority (scalar_sourced (flatten_args args)) := by omega
    obtain ⟨first, rest, hcat⟩ := in_category_max_ne_nil _ hpos
    refine ⟨first, rest, hcat, ?_⟩
    rw [dtype_promotion_res_unfold, if_neg (by omega), if_pos hlt]
    exact promote_types_of_cons _ _ _ _ _ hcat
  · intro hnlt
    have hbranch : ∀ (hpos : 0 < max_priority (tensor_sourced H (flatten_args args))),
        ∃ first rest,
          in_category (tensor_sourced H (flatten_args args))
            (max_priority (tensor_sourced H (flatten_args args))) = first :: rest ∧
          dtype_promotion_res H args
            = .ok (rest.foldl (fun res used => H.PyArray_PromoteTypes used res) first) := by
      intro hpos
      obtain ⟨first, rest, hcat⟩ := in_category_max_ne_nil _ hpos
      refine ⟨first, rest, hcat, ?_⟩
      rw [dtype_promotion_res_unfold, if_neg (by omega), if_neg hnlt]
      exact promote_types_of_cons _ _ _ _ _ hcat
    constructor
    · intro d hd
      by_cases hpos : 0 < max_priority (tensor_sourced H (flatten_args args))
      · obtain ⟨first, rest, hcat, hres⟩ := hbranch hpos
        rw [hres] at hd
        exact ⟨first, rest, hcat, (Except.ok.inj hd).symm⟩
      · rw [dtype_promotion_res_unfold, if_pos (by omega)] at hd
        cases hd
    · intro hpos
      obtain ⟨first, rest, _, hres⟩ := hbranch hpos
      exact ⟨_, hres⟩
  · intro p t ht
    rw [dtype_promotion_res_unfold]
    simp [flatten_args, scalar_sourced, tensor_sourced, tensor_descr, scalar2dtype, ht,
      max_priority, category_priority, PyArray_DescrFromType, promote_types]
  · intro p t v ht
    rw [dtype_promotion_res_unfold]
    simp [flatten_args, scalar_sourced, tensor_sourced, tensor_descr, scalar2dtype, ht,
      max_priority, category_priority, PyArray_DescrFromType, promote_types]

theorem dtype_promotion_res_cases (H : Host) (args : List PyObj) :
    (max_priority (scalar_sourced (flatten_args args)) ≤ 0 ∧
      max_priority (tensor_sourced H (flatten_args args)) ≤ 0 ∧
      dtype_promotion_res H args
        = .error { kind := ExcKind.ValueError, what := no_dtype_msg }) ∨
    ((0 < max_priority (scalar_sourced (flatten_args args)) ∨
      0 < max_priority (tensor_sourced H (flatten_args args))) ∧
      ∃ d, dtype_promotion_res H args = .ok d) := by
  by_cases hz : max_priority (scalar_sourced (flatten_args args)) ≤ 0 ∧
      max_priority (tensor_sourced H (flatten_args args)) ≤ 0
  · left
    exact ⟨hz.1, hz.2, by rw [dtype_promotion_res_unfold, if_pos hz]⟩
  · right
    refine ⟨by omega, ?_⟩
    by_cases hlt : max_priority (tensor_sourced H (flatten_args args))
        < max_priority (scalar_sourced (flatten_args args))
    · obtain ⟨first, rest, hcat⟩ := in_category_max_ne_nil
        (scalar_sourced (flatten_args args)) (by omega)
      refine ⟨rest.foldl (fun res used => H.PyArray_PromoteTypes used res) first, ?_⟩
      rw [dtype_promotion_res_unfold, if_neg hz, if_pos hlt]
      exact promote_types_of_cons _ _ _ _ _ hcat
    · obtain ⟨first, rest, hcat⟩ := in_category_max_ne_nil
        (tensor_sourced H (flatten_args args)) (by omega)
      refine ⟨rest.foldl (fun res used => H.PyArray_PromoteTypes used res) first, ?_⟩
      rw [dtype_promotion_res_unfold, if_neg hz, if_neg hlt]
      exact promote_types_of_cons _ _ _ _ _ hcat

theorem unclassifiable_iff_zero (H : Host) (ops : List PyObj) :
    (∀ d ∈ tensor_sourced H ops ++ scalar_sourced ops, category_priority d.kind = 0) ↔
      (max_priority (scalar_sourced ops) ≤ 0 ∧ max_priority (tensor_sourced H ops) ≤ 0) := by
  rw [Nat.le_zero, Nat.le_zero, max_priority_eq_zero_iff, max_priority_eq_zero_iff]
  constructor
  · intro h
    exact ⟨fun d hd => h d (List.mem_append.mpr (Or.inr hd)),
      fun d hd => h d (List.mem_append.mpr (Or.inl hd))⟩
  · intro h d hd
    rcases List.mem_append.mp hd with ht | hs
    · exact h.2 d ht
    · exact h.1 d hs

theorem dtype_promotion_error_iff (H : Host) (args : List PyObj) (e : Exc) :
    _dtype_promotion H args = Run.error e ↔ dtype_promotion_res H args = .error e := by
  unfold _dtype_promotion decref_tuple_return
  cases dtype_promotion_res H args with
  | error e2 => simp
  | ok d => cases is_tuple args <;> simp

theorem dtype_promotion_ok_iff (H : Host) (args : List PyObj) (d : PyArray_Descr) :
    _dtype_promotion H args = Run.ok d ↔
      is_tuple args = true ∧ dtype_promotion_res H args = .ok d := by
  unfold _dtype_promotion decref_tuple_return
  cases dtype_promotion_res H args with
  | error e2 => simp
  | ok d2 => cases is_tuple args <;> simp

theorem dtype_promotion_undefined_iff (H : Host) (args : List PyObj) :
    _dtype_promotion H args = Run.undefined ↔
      is_tuple args = false ∧ ∃ d, dtype_promotion_res H args = .ok d := by
  unfold _dtype_promotion decref_tuple_return
  cases dtype_promotion_res H args with
  | error e2 => simp
  | ok d2 => cases is_tuple args <;> simp

/-- C7: the code at the flat calls of the claim.  For an int32 tensor with a float
scalar and for a float32 tensor with an int scalar the selection rule of the claim is
what the code computes, and the same operands passed in one tuple return float32; but
passed flat, the epilogue `Py_DECREF(tuple)` runs on the uninitialised pointer, so the
call has undefined behaviour instead of returning float32.  No flat call returns a
dtype, and a flat call with a classifiable operand is always undefined. -/
theorem dtype_promotion_flat_call_undefined :
    _dtype_promotion demo_host [demo_tensor 1, PyObj.float] = Run.undefined ∧
    _dtype_promotion demo_host [PyObj.tuple [demo_tensor 1, PyObj.float]]
      = Run.ok (PyArray_DescrFromType .NPY_FLOAT32) ∧
    _dtype_promotion demo_host [demo_tensor 0, PyObj.int 5] = Run.undefined ∧
    _dtype_promotion demo_host [PyObj.tuple [demo_tensor 0, PyObj.int 5]]
      = Run.ok (PyArray_DescrFromType .NPY_FLOAT32) ∧
    (∀ (H : Host) (args : List PyObj) (d : PyArray_Descr), is_tuple args = false →
      _dtype_promotion H args ≠ Run.ok d) ∧
    (∀ (H : Host) (args : List PyObj), is_tuple args = false →
      (∃ d ∈ tensor_sourced H (flatten_args args) ++ scalar_sourced (flatten_args args),
        category_priority d.kind ≠ 0) →
      _dtype_promotion H args = Run.undefined) := by
  refine ⟨rfl, rfl, rfl, rfl, ?_, ?_⟩
  · intro H args d hflat hok
    have h := ((dtype_promotion_ok_iff H args d).mp hok).1
    rw [hflat] at h
    cases h
  · intro H args hflat hex
    rw [dtype_promotion_undefined_iff]
    refine ⟨hflat, ?_⟩
    rcases dtype_promotion_res_cases H args with ⟨h1, h2, _⟩ | ⟨_, hd⟩
    · obtain ⟨d, hd, hne⟩ := hex
      exact absurd ((unclassifiable_iff_zero H _).mpr ⟨h1, h2⟩ d hd) hne
    · exact hd

/-- C8, the claim as written fails: for the single operand `None` the caller of
`dtype_promotion` observes `RuntimeError`, not `ValueError`; with no argument at all
it observes `TypeError` "empty input is not allowed"; and the text thrown by
`_dtype_promotion` is not "no dtype available". -/
theorem dtype_promotion_error_counterexample :
    dtype_promotion demo_host [PyObj.none]
      = .error { kind := ExcKind.RuntimeError, what := "invalid input, no dtype avaliable" } ∧
    dtype_promotion demo_host []
      = .error { kind := ExcKind.TypeError, what := "empty input is not allowed" } ∧
    _dtype_promotion demo_host [PyObj.none]
      = .error { kind := ExcKind.ValueError, what := "invalid input, no dtype avaliable" } ∧
    ExcKind.RuntimeError ≠ ExcKind.ValueError ∧
    "invalid input, no dtype avaliable" ≠ "no dtype available" := by
  refine ⟨rfl, rfl, rfl, by decide, by decide⟩

/-- C8 as amended: `_dtype_promotion` throws exactly when no operand is classifiable
into a non-zero category (empty operand list, only `None` operands, only operands of
unknown kind), and the exception is then the `ValueError` with the text of the source;
the caller of the exposed `dtype_promotion` observes that failure as `RuntimeError`
with the same text, and for an empty argument list it observes the `TypeError`
"empty input is not allowed" instead; for a single boolean scalar passed inside one
tuple or list argument both succeed and return the boolean dtype. -/
theorem dtype_promotion_fails_iff_unclassifiable (H : Host) (args : List PyObj) :
    ((∃ e, _dtype_promotion H args = .error e) ↔
      ∀ d ∈ tensor_sourced H (flatten_args args) ++ scalar_sourced (flatten_args args),
        category_priority d.kind = 0) ∧
    (∀ e, _dtype_promotion H args = .error e →
      e = { kind := ExcKind.ValueError, what := no_dtype_msg }) ∧
    (∀ e, _dtype_promotion H args = .error e → args ≠ [] →
      dtype_promotion H args = .error { kind := ExcKind.RuntimeError, what := no_dtype_msg }) ∧
    dtype_promotion H [] = .error { kind := ExcKind.TypeError, what := "empty input is not allowed" } ∧
    (∀ b, _dtype_promotion H [PyObj.tuple [PyObj.bool b]]
          = .ok (PyArray_DescrFromType .NPY_BOOL) ∧
      _dtype_promotion H [PyObj.list [PyObj.bool b]]
          = .ok (PyArray_DescrFromType .NPY_BOOL) ∧
      dtype_promotion H [PyObj.tuple [PyObj.bool b]]
          = .ok (H.dtype_np2mgb_descr (PyArray_DescrFromType .NPY_BOOL)) ∧
      dtype_promotion H [PyObj.list [PyObj.bool b]]
          = .ok (H.dtype_np2mgb_descr (PyArray_DescrFromType .NPY_BOOL))) := by
  have hcases := dtype_promotion_res_cases H args
  have hzero := unclassifiable_iff_zero H (flatten_args args)
  have hval : ∀ e, _dtype_promotion H args = .error e →
      _dtype_promotion H args = .error { kind := ExcKind.ValueError, what := no_dtype_msg } := by
    intro e he
    rw [dtype_promotion_error_iff] at he ⊢
    rcases hcases with ⟨_, _, h3⟩ | ⟨_, d, hd⟩
    · exact h3
    · rw [hd] at he; cases he
  refine ⟨?_, ?_, ?_, ?_, ?_⟩
  · rw [hzero]
    constructor
    · rintro ⟨e, he⟩
      rw [dtype_promotion_error_iff] at he
      rcases hcases with ⟨h1, h2, _⟩ | ⟨_, d, hd⟩
      · exact ⟨h1, h2⟩
      · rw [hd] at he; cases he
    · intro hz
      rcases hcases with ⟨_, _, h3⟩ | ⟨hpos, _⟩
      · exact ⟨_, (dtype_promotion_error_iff H args _).mpr h3⟩
      · omega
  · intro e he
    have h2 := hval e he
    rw [he] at h2
    exact Run.error.inj h2
  · intro e he hne
    have h2 := hval e he
    unfold dtype_promotion
    rw [h2]
    have hlen : ¬ args.length = 0 := by
      intro h0
      exact hne (List.length_eq_zero.mp h0)
    simp [hlen]
  · rfl
  · intro b
    have hres : ∀ a : List PyObj, flatten_args a = [PyObj.bool b] →
        dtype_promotion_res H a = .ok (PyArray_DescrFromType .NPY_BOOL) := by
      intro a ha
      rw [dtype_promotion_res_unfold, ha]
      simp [scalar_sourced, tensor_sourced, tensor_descr, scalar2dtype,
        max_priority, category_priority, PyArray_DescrFromType, promote_types]
    have h1 : _dtype_promotion H [PyObj.tuple [PyObj.bool b]]
        = .ok (PyArray_DescrFromType .NPY_BOOL) :=
      (dtype_promotion_ok_iff H _ _).mpr ⟨rfl, hres _ rfl⟩
    have h2 : _dtype_promotion H [PyObj.list [PyObj.bool b]]
        = .ok (PyArray_DescrFromType .NPY_BOOL) :=
      (dtype_promotion_ok_iff H _ _).mpr ⟨rfl, hres _ rfl⟩
    refine ⟨h1, h2, ?_, ?_⟩
    · unfold dtype_promotion
      rw [h1]
      simp
    · unfold dtype_promotion
      rw [h2]
      simp

/-- C8 as amended, at concrete inputs: only `None` operands, and one boolean inside a
tuple. -/
theorem dtype_promotion_fails_iff_unclassifiable_witness :
    dtype_promotion demo_host [PyObj.none, PyObj.none]
      = .error { kind := ExcKind.RuntimeError, what := no_dtype_msg } ∧
    _dtype_promotion demo_host [PyObj.tuple [PyObj.bool true]]
      = .ok (PyArray_DescrFromType .NPY_BOOL) :=
  ⟨(dtype_promotion_fails_iff_unclassifiable demo_host [PyObj.none, PyObj.none]).2.2.1
      { kind := ExcKind.ValueError, what := no_dtype_msg } rfl (by simp),
   ((dtype_promotion_fails_iff_unclassifiable demo_host []).2.2.2.2 true).1⟩

/-! ## The device resolver -/

theorem tensor_devices_cons (H : Host) (x : PyObj) (rest : List PyObj) :
    tensor_devices H (x :: rest) =
      match x.try_cast with
      | some t => H.tensor_comp_node t :: tensor_devices H rest
      | Option.none => tensor_devices H rest := by
  unfold tensor_devices
  cases hx : x.try_cast <;> simp [List.filterMap_cons, hx]

theorem device_loop_valid (H : Host) (xs : List PyObj) (cn : CompNode) :
    device_loop H xs true cn =
      match (tensor_devices H xs).find? (fun b => decide (b ≠ cn)) with
      | Option.none => .ok (true, cn)
      | some b => .error { kind := .ValueError, what := ambiguous_device_msg cn b } := by
  induction xs with
  | nil => simp [device_loop, tensor_devices]
  | cons x rest ih =>
    rw [tensor_devices_cons]
    unfold device_loop
    cases hx : x.try_cast with
    | none => simpa using ih
    | some t =>
      by_cases hne : H.tensor_comp_node t = cn
      · simp [hne, ih]
      · simp [hne]

theorem device_loop_invalid (H : Host) (xs : List PyObj) (cn : CompNode) :
    device_loop H xs false cn =
      match tensor_devices H xs with
      | [] => .ok (false, cn)
      | d :: rest =>
        match rest.find? (fun b => decide (b ≠ d)) with
        | Option.none => .ok (true, d)
        | some b => .error { kind := .ValueError, what := ambiguous_device_msg d b } := by
  induction xs with
  | nil => simp [device_loop, tensor_devices]
  | cons x rest ih =>
    rw [tensor_devices_cons]
    unfold device_loop
    cases hx : x.try_cast with
    | none => simpa using ih
    | some t => simp [device_loop_valid]

theorem get_device_res_eq (H : Host) (args : List PyObj) :
    get_device_res H args =
      match tensor_devices H (flatten_args args) with
      | [] => .error { kind := .AssertionError, what := "expect at least 1 device" }
      | d :: rest =>
        match rest.find? (fun b => decide (b ≠ d)) with
        | Option.none => .ok d
        | some b => .error { kind := .ValueError, what := ambiguous_device_msg d b } := by
  unfold get_device_res
  rw [device_loop_invalid]
  cases tensor_devices H (flatten_args args) with
  | nil => simp
  | cons d rest =>
    simp only
    cases rest.find? (fun b => decide (b ≠ d)) <;> simp

theorem find_mismatch_none (d : CompNode) (rest : List CompNode) (h : ∀ x ∈ rest, x = d) :
    rest.find? (fun b => decide (b ≠ d)) = Option.none := by
  rw [List.find?_eq_none]
  intro x hx
  simp [h x hx]

theorem find_mismatch_some (d b : CompNode) (pre post : List CompNode)
    (hpre : ∀ x ∈ pre, x = d) (hb : b ≠ d) :
    (pre ++ b :: post).find? (fun c => decide (c ≠ d)) = some b := by
  induction pre with
  | nil => simp [List.find?_cons, hb]
  | cons x rest ih =>
    have hx : x = d := hpre x (List.mem_cons_self _ _)
    have hrest : ∀ y ∈ rest, y = d := fun y hy => hpre y (List.mem_cons_of_mem _ hy)
    simp only [List.cons_append, List.find?_cons, hx]
    simpa using ih hrest

theorem get_device_error_iff (H : Host) (args : List PyObj) (e : Exc) :
    _get_device H args = Run.error e ↔ get_device_res H args = .error e := by
  unfold _get_device decref_tuple_return
  cases get_device_res H args with
  | error e2 => simp
  | ok d => cases is_tuple args <;> simp

theorem get_device_ok_iff (H : Host) (args : List PyObj) (cn : CompNode) :
    _get_device H args = Run.ok cn ↔
      is_tuple args = true ∧ get_device_res H args = .ok cn := by
  unfold _get_device decref_tuple_return
  cases get_device_res H args with
  | error e2 => simp
  | ok d2 => cases is_tuple args <;> simp

theorem get_device_undefined_iff (H : Host) (args : List PyObj) :
    _get_device H args = Run.undefined ↔
      is_tuple args = false ∧ ∃ cn, get_device_res H args = .ok cn := by
  unfold _get_device decref_tuple_return
  cases get_device_res H args with
  | error e2 => simp
  | ok d2 => cases is_tuple args <;> simp

/-- C9: the code at a flat call that should return a device.  For tensors on `A`, `A`
with a scalar between, lines 585-618 leave the first device `A` in `cn`, and the same
operands passed in one tuple return `A`; but passed flat, the epilogue
`Py_DECREF(tuple)` runs on the uninitialised pointer, so the call has undefined
behaviour instead of returning `A`.  The failure for tensors on `A`, `A`, `B` is
thrown before the epilogue and is the `ValueError` naming "A vs B".  No flat call
returns a device, and a flat call whose tensor operands all have the device of the
first one is always undefined. -/
theorem get_device_flat_call_undefined :
    _get_device demo_host [demo_tensor 1, PyObj.float, demo_tensor 2] = Run.undefined ∧
    _get_device demo_host [PyObj.tuple [demo_tensor 1, PyObj.float, demo_tensor 2]]
      = Run.ok { id := 1, name := "A" } ∧
    _get_device demo_host [demo_tensor 1, PyObj.int 3, demo_tensor 2, PyObj.none, demo_tensor 11]
      = Run.error { kind := ExcKind.ValueError, what := "ambiguous device: A vs B" } ∧
    (∀ (H : Host) (args : List PyObj) (cn : CompNode), is_tuple args = false →
      _get_device H args ≠ Run.ok cn) ∧
    (∀ (H : Host) (args : List PyObj) (d : CompNode) (rest : List CompNode),
      is_tuple args = false → tensor_devices H (flatten_args args) = d :: rest →
      (∀ x ∈ rest, x = d) → _get_device H args = Run.undefined) ∧
    (∀ (H : Host) (args : List PyObj) (d : CompNode) (rest : List CompNode),
      is_tuple args = true → tensor_devices H (flatten_args args) = d :: rest →
      (∀ x ∈ rest, x = d) → _get_device H args = Run.ok d) := by
  refine ⟨rfl, rfl, rfl, ?_, ?_, ?_⟩
  · intro H args cn hflat hok
    have h := ((get_device_ok_iff H args cn).mp hok).1
    rw [hflat] at h
    cases h
  · intro H args d rest hflat hdev hall
    rw [get_device_undefined_iff]
    refine ⟨hflat, d, ?_⟩
    rw [get_device_res_eq, hdev]
    simp only
    rw [find_mismatch_none d rest hall]
  · intro H args d rest hnest hdev hall
    rw [get_device_ok_iff]
    refine ⟨hnest, ?_⟩
    rw [get_device_res_eq, hdev]
    simp only
    rw [find_mismatch_none d rest hall]

/-- C10: for every operand list that contains no Tensor Entity, a non-empty list of
scalars and an empty nested sequence included, `_get_device` fails with the assertion
failure "expect at least 1 device" and returns no device; a device it does return is
always the device of one of its tensor operands, never the default-constructed one
it starts from. -/
theorem get_device_without_tensor_fails (H : Host) (args : List PyObj) :
    ((∀ o ∈ flatten_args args, o.try_cast = Option.none) →
      _get_device H args
        = .error { kind := ExcKind.AssertionError, what := "expect at least 1 device" }) ∧
    (∀ cn, _get_device H args = .ok cn →
      ∃ o ∈ flatten_args args, ∃ t, o.try_cast = some t ∧ H.tensor_comp_node t = cn) ∧
    (∀ v, _get_device H [PyObj.int v, PyObj.float, PyObj.bool true]
        = .error { kind := ExcKind.AssertionError, what := "expect at least 1 device" }) ∧
    _get_device H [PyObj.tuple []]
        = .error { kind := ExcKind.AssertionError, what := "expect at least 1 device" } ∧
    _get_device H [PyObj.list []]
        = .error { kind := ExcKind.AssertionError, what := "expect at least 1 device" } := by
  have hnil : ∀ xs : List PyObj, (∀ o ∈ xs, o.try_cast = Option.none) →
      tensor_devices H xs = [] := by
    intro xs hxs
    unfold tensor_devices
    rw [List.filterMap_eq_nil_iff]
    intro o ho
    simp [hxs o ho]
  refine ⟨?_, ?_, ?_, ?_, ?_⟩
  · intro hno
    rw [get_device_error_iff, get_device_res_eq, hnil _ hno]
  · intro cn hcn
    have hcn := ((get_device_ok_iff H args cn).mp hcn).2
    rw [get_device_res_eq] at hcn
    cases hdev : tensor_devices H (flatten_args args) with
    | nil => rw [hdev] at hcn; cases hcn
    | cons d rest =>
      rw [hdev] at hcn
      simp only at hcn
      cases hfind : rest.find? (fun b => decide (b ≠ d)) with
      | some b => rw [hfind] at hcn; cases hcn
      | none =>
        rw [hfind] at hcn
        have hd : d = cn := Except.ok.inj hcn
        have hmem : d ∈ tensor_devices H (flatten_args args) := by
          rw [hdev]; exact List.mem_cons_self _ _
        unfold tensor_devices at hmem
        rw [List.mem_filterMap] at hmem
        obtain ⟨o, ho, hmap⟩ := hmem
        cases hc : o.try_cast with
        | none => rw [hc] at hmap; cases hmap
        | some t =>
          rw [hc] at hmap
          exact ⟨o, ho, t, hc, (Option.some.inj hmap).trans hd⟩
  · intro v
    rw [get_device_error_iff, get_device_res_eq]
    rfl
  · rw [get_device_error_iff, get_device_res_eq]
    rfl
  · rw [get_device_error_iff, get_device_res_eq]
    rfl

/-- C10 at a concrete input: a list of two scalars. -/
theorem get_device_without_tensor_fails_witness :
    _get_device demo_host [PyObj.int 1, PyObj.float]
      = .error { kind := ExcKind.AssertionError, what := "expect at least 1 device" } :=
  (get_device_without_tensor_fails demo_host [PyObj.int 1, PyObj.float]).1
    (fun o ho => by
      rcases List.mem_cons.mp ho with rfl | ho2
      · rfl
      · rcases List.mem_cons.mp ho2 with rfl | ho3
        · rfl
        · cases ho3)

/-! ## The resolvers: one level of flattening -/

theorem flatten_args_of_not_single_seq (xs : List PyObj)
    (ht : ∀ ys, xs ≠ [PyObj.tuple ys]) (hl : ∀ ys, xs ≠ [PyObj.list ys]) :
    flatten_args xs = xs := by
  cases xs with
  | nil => rfl
  | cons x rest =>
    cases rest with
    | cons y more => cases x <;> rfl
    | nil =>
      cases x with
      | tuple ys => exact absurd rfl (ht ys)
      | list ys => exact absurd rfl (hl ys)
      | _ => rfl

theorem dtype_promotion_res_congr (H : Host) (a b : List PyObj)
    (h : flatten_args a = flatten_args b) :
    dtype_promotion_res H a = dtype_promotion_res H b := by
  rw [dtype_promotion_res_unfold, dtype_promotion_res_unfold, h]

theorem get_device_res_congr (H : Host) (a b : List PyObj)
    (h : flatten_args a = flatten_args b) : get_device_res H a = get_device_res H b := by
  rw [get_device_res_eq, get_device_res_eq, h]

theorem dtype_promotion_res_of_sourced (H : Host) (a b : List PyObj)
    (ht : tensor_sourced H (flatten_args a) = tensor_sourced H (flatten_args b))
    (hs : scalar_sourced (flatten_args a) = scalar_sourced (flatten_args b)) :
    dtype_promotion_res H a = dtype_promotion_res H b := by
  rw [dtype_promotion_res_unfold, dtype_promotion_res_unfold, ht, hs]

theorem get_device_res_of_devices (H : Host) (a b : List PyObj)
    (h : tensor_devices H (flatten_args a) = tensor_devices H (flatten_args b)) :
    get_device_res H a = get_device_res H b := by
  rw [get_device_res_eq, get_device_res_eq, h]

theorem dtype_promotion_of_res (H : Host) (a b : List PyObj) (ht : is_tuple a = is_tuple b)
    (h : dtype_promotion_res H a = dtype_promotion_res H b) :
    _dtype_promotion H a = _dtype_promotion H b := by
  unfold _dtype_promotion
  rw [h, ht]

theorem get_device_of_res (H : Host) (a b : List PyObj) (ht : is_tuple a = is_tuple b)
    (h : get_device_res H a = get_device_res H b) :
    _get_device H a = _get_device H b := by
  unfold _get_device
  rw [h, ht]

theorem sourced_skip_nested (H : Host) (pre post : List PyObj) (s : PyObj)
    (hs : ∃ ys, s = PyObj.tuple ys ∨ s = PyObj.list ys) :
    tensor_sourced H (pre ++ s :: post) = tensor_sourced H (pre ++ post) ∧
    scalar_sourced (pre ++ s :: post) = scalar_sourced (pre ++ post) ∧
    tensor_devices H (pre ++ s :: post) = tensor_devices H (pre ++ post) := by
  obtain ⟨ys, rfl | rfl⟩ := hs <;>
    simp [tensor_sourced, scalar_sourced, tensor_devices, List.filterMap_append,
      List.filterMap_cons, tensor_descr, scalar2dtype, PyObj.try_cast]

/-- C11, the claim as written fails: for the operand sequence `xs = [(True,)]`, a
single element that is itself a tuple, the flat call flattens `xs` and returns the
boolean dtype, while the call with the single argument `(xs)` flattens once and finds
no classifiable operand; likewise `_get_device` on `xs = [(t,)]` returns the device
of `t` when called flat and fails when called with the tuple `xs`. -/
theorem resolvers_flat_vs_nested_counterexample :
    _dtype_promotion demo_host [PyObj.tuple [PyObj.bool true]]
      = .ok (PyArray_DescrFromType .NPY_BOOL) ∧
    _dtype_promotion demo_host [PyObj.tuple [PyObj.tuple [PyObj.bool true]]]
      = .error { kind := ExcKind.ValueError, what := "invalid input, no dtype avaliable" } ∧
    _get_device demo_host [PyObj.tuple [demo_tensor 1]] = .ok { id := 1, name := "A" } ∧
    _get_device demo_host [PyObj.tuple [PyObj.tuple [demo_tensor 1]]]
      = .error { kind := ExcKind.AssertionError, what := "expect at least 1 device" } := by
  refine ⟨rfl, rfl, rfl, rfl⟩

/-- C11 as amended: for every operand sequence `xs` that is not itself a single tuple
or list, `_dtype_promotion` and `_get_device` give the same outcome (same result or
same failure) when called with the single argument that is the tuple `xs` as when
called with the single argument that is the list `xs`, and they throw when called
with the operands `xs` passed flat exactly when they throw for that single sequence
argument, with the same exception.  Flattening is exactly one level deep: a tuple or
list nested inside the single sequence argument is not flattened, it is neither
tensor-sourced nor scalar-sourced nor a Tensor Entity, and the outcome is the one
obtained without it. -/
theorem resolvers_flatten_exactly_one_level (H : Host) (xs : List PyObj)
    (ht : ∀ ys, xs ≠ [PyObj.tuple ys]) (hl : ∀ ys, xs ≠ [PyObj.list ys]) :
    _dtype_promotion H [PyObj.tuple xs] = _dtype_promotion H [PyObj.list xs] ∧
    _get_device H [PyObj.tuple xs] = _get_device H [PyObj.list xs] ∧
    (∀ e, _dtype_promotion H xs = .error e ↔ _dtype_promotion H [PyObj.tuple xs] = .error e) ∧
    (∀ e, _get_device H xs = .error e ↔ _get_device H [PyObj.tuple xs] = .error e) ∧
    (∀ pre post s, (∃ ys, s = PyObj.tuple ys ∨ s = PyObj.list ys) →
      flatten_args [PyObj.tuple (pre ++ s :: post)] = pre ++ s :: post ∧
      flatten_args [PyObj.list (pre ++ s :: post)] = pre ++ s :: post ∧
      tensor_descr H s = Option.none ∧ scalar2dtype s = Option.none ∧
      s.try_cast = Option.none ∧
      _dtype_promotion H [PyObj.tuple (pre ++ s :: post)]
        = _dtype_promotion H [PyObj.tuple (pre ++ post)] ∧
      _dtype_promotion H [PyObj.list (pre ++ s :: post)]
        = _dtype_promotion H [PyObj.list (pre ++ post)] ∧
      _get_device H [PyObj.tuple (pre ++ s :: post)]
        = _get_device H [PyObj.tuple (pre ++ post)] ∧
      _get_device H [PyObj.list (pre ++ s :: post)]
        = _get_device H [PyObj.list (pre ++ post)]) := by
  have hflat := flatten_args_of_not_single_seq xs ht hl
  have h1 : flatten_args xs = flatten_args [PyObj.tuple xs] := by rw [hflat]; rfl
  refine ⟨dtype_promotion_of_res H _ _ rfl (dtype_promotion_res_congr H _ _ rfl),
    get_device_of_res H _ _ rfl (get_device_res_congr H _ _ rfl), ?_, ?_, ?_⟩
  · intro e
    rw [dtype_promotion_error_iff, dtype_promotion_error_iff,
      dtype_promotion_res_congr H _ _ h1]
  · intro e
    rw [get_device_error_iff, get_device_error_iff, get_device_res_congr H _ _ h1]
  intro pre post s hs
  have hskip := sourced_skip_nested H pre post s hs
  refine ⟨rfl, rfl, ?_, ?_, ?_, ?_, ?_, ?_, ?_⟩
  · obtain ⟨ys, rfl | rfl⟩ := hs <;> rfl
  · obtain ⟨ys, rfl | rfl⟩ := hs <;> rfl
  · obtain ⟨ys, rfl | rfl⟩ := hs <;> rfl
  · exact dtype_promotion_of_res H _ _ rfl
      (dtype_promotion_res_of_sourced H _ _ hskip.1 hskip.2.1)
  · exact dtype_promotion_of_res H _ _ rfl
      (dtype_promotion_res_of_sourced H _ _ hskip.1 hskip.2.1)
  · exact get_device_of_res H _ _ rfl (get_device_res_of_devices H _ _ hskip.2.2)
  · exact get_device_of_res H _ _ rfl (get_device_res_of_devices H _ _ hskip.2.2)

/-- C11 as amended, at concrete inputs: an int32 tensor and a float scalar passed as
one tuple and as one list, and two `None` operands passed flat and as one tuple. -/
theorem resolvers_flatten_exactly_one_level_witness :
    _dtype_promotion demo_host [PyObj.tuple [demo_tensor 1, PyObj.float]]
      = _dtype_promotion demo_host [PyObj.list [demo_tensor 1, PyObj.float]] ∧
    _dtype_promotion demo_host [PyObj.tuple [PyObj.none, PyObj.none]]
      = .error { kind := ExcKind.ValueError, what := no_dtype_msg } :=
  ⟨(resolvers_flatten_exactly_one_level demo_host [demo_tensor 1, PyObj.float]
      (fun ys h => by cases h) (fun ys h => by cases h)).1,
   ((resolvers_flatten_exactly_one_level demo_host [PyObj.none, PyObj.none]
      (fun ys h => by cases h) (fun ys h => by cases h)).2.2.1
      { kind := ExcKind.ValueError, what := no_dtype_msg }).mp rfl⟩

/-! ## The router: what the default path returns -/

/-- C14: on the default path of `apply` (effective flags without REQUIRES_GRAD and
TRACE, operator not generic) with all operands channel-backed, their handles being
`handles` in operand order, `apply_op` is called once with exactly these handles in
that order; when it returns the handles `hs`, `apply` returns as many entities as
there are handles in `hs`, the i-th being the entity freshly built by `Tensor(Handle)`
around the i-th returned handle (no flags, no graph node, fresh trace info). -/
theorem apply_default_wraps_returned_handles (F : FlagLayout) (env : Env) (ctx : ApplyContext)
    (id : Nat) (handles hs : List Handle)
    (hg : hasFlag (ctx.flags &&& bitNot F.width env.global_disable) F.GRAD = false)
    (ht : hasFlag (ctx.flags &&& bitNot F.width env.global_disable) F.TRACE = false)
    (hop : ctx.op = OpDef.other id)
    (hargs : ctx.args.map (fun t => t.m_handle) = handles.map some)
    (hret : env.apply_op ctx.op (handles.map some) = .ok hs) :
    (apply F env ctx).calls = [Call.apply_op ctx.op (handles.map some)] ∧
    handles.length = ctx.args.length ∧
    (∀ i : Nat, Option.map (fun t : Tensor => t.m_handle) ctx.args[i]?
        = Option.map some handles[i]?) ∧
    ∃ outputs, (apply F env ctx).result = .ok outputs ∧
      outputs.length = hs.length ∧
      (∀ i : Nat, outputs[i]? = Option.map Tensor.ofHandle hs[i]?) ∧
      (∀ t ∈ outputs, ∃ h ∈ hs, t.m_handle = some h ∧ t.m_flags = 0 ∧
        t.m_var = Option.none ∧ t.m_trace_info = TraceInfo.init) := by
  refine ⟨?_, ?_, ?_, ?_⟩
  · rw [apply_default_calls F env ctx id hg hop ht, hargs]
  · have := congrArg List.length hargs
    simpa using this.symm
  · intro i
    have := congrArg (fun l => l[i]?) hargs
    simpa using this
  · refine ⟨hs.map Tensor.ofHandle, ?_, ?_, ?_, ?_⟩
    · rw [apply_default_result F env ctx id hg hop ht, hargs, hret]
    · simp
    · intro i
      simp
    · intro t htm
      obtain ⟨h, hh, rfl⟩ := List.mem_map.mp htm
      exact ⟨h, hh, rfl, rfl, rfl, rfl⟩

/-- C14 at a concrete input: one operand with handle `1`; the channel returns the
handle `100`. -/
theorem apply_default_wraps_returned_handles_witness :
    (apply FlagLayout.std (demo_env 0 []) (demo_ctx 0 (OpDef.other 0) (Tensor.ofHandle 1))).calls
      = [Call.apply_op (OpDef.other 0) [some 1]] ∧
    (apply FlagLayout.std (demo_env 0 []) (demo_ctx 0 (OpDef.other 0) (Tensor.ofHandle 1))).result
      = .ok [Tensor.ofHandle 100] := by
  obtain ⟨hcalls, _, _, outputs, hres, _, hget, _⟩ :=
    apply_default_wraps_returned_handles FlagLayout.std (demo_env 0 [])
      (demo_ctx 0 (OpDef.other 0) (Tensor.ofHandle 1)) 0 [1] [100]
      (by decide) (by decide) rfl rfl rfl
  exact ⟨hcalls, rfl⟩

/-! ## The read flags of `trace_info` -/

theorem reads_kept_refl (t : Tensor) : reads_kept t t := ⟨id, id, id⟩

theorem reads_kept_trans (a b c : Tensor) (h1 : reads_kept a b) (h2 : reads_kept b c) :
    reads_kept a c :=
  ⟨fun h => h2.1 (h1.1 h), fun h => h2.2.1 (h1.2.1 h), fun h => h2.2.2 (h1.2.2 h)⟩

theorem shape_entity (F : FlagLayout) (R : Reads) (skip_tracing : Bool) (t : Tensor) :
    (TensorWrapper.shape F R skip_tracing t).1 =
      if skip_tracing then t
      else { t with m_trace_info := { t.m_trace_info with shape_read := true } } := by
  unfold TensorWrapper.shape
  cases skip_tracing
  · simp only [TensorWrapper.set_shape_read, cast_bool, Bool.not_false, if_true,
      Bool.false_eq_true, if_false]
    split_ifs <;> rfl
  · simp only [Bool.not_true, Bool.false_eq_true, if_false, if_true]
    split_ifs <;> rfl

theorem numpy_entity (F : FlagLayout) (R : Reads) (skip_tracing : Bool) (t : Tensor) :
    (TensorWrapper.numpy F R skip_tracing t).1 =
      if skip_tracing then t
      else { t with m_trace_info := { t.m_trace_info with value_read := true } } := by
  unfold TensorWrapper.numpy
  cases skip_tracing
  · simp only [TensorWrapper.set_value_read, cast_bool, Bool.not_false, if_true,
      Bool.false_eq_true, if_false]
    split
    · split_ifs
      · rfl
      · split <;> rfl
    · split
      · rfl
      · rfl
      · split_ifs <;> rfl
  · simp only [Bool.not_true, Bool.false_eq_true, if_false, if_true]
    split
    · split_ifs
      · rfl
      · split <;> rfl
    · split
      · rfl
      · rfl
      · split_ifs <;> rfl

theorem dev_tensor_entity (R : Reads) (skip_tracing : Bool) (t : Tensor) :
    (TensorWrapper._dev_tensor R skip_tracing t).1 =
      if skip_tracing then t
      else { t with m_trace_info := { t.m_trace_info with data_read := true } } := by
  unfold TensorWrapper._dev_tensor
  cases skip_tracing <;> rfl

theorem step_reads_kept (F : FlagLayout) (R : Reads) (skip_tracing : Bool) (t : Tensor)
    (op : WrapperOp) (h : op.assigns_false R = false) :
    reads_kept t (op.step F R skip_tracing t) := by
  cases op with
  | shape =>
    simp only [WrapperOp.step, shape_entity]
    cases skip_tracing <;> simp [reads_kept]
  | numpy =>
    simp only [WrapperOp.step, numpy_entity]
    cases skip_tracing <;> simp [reads_kept]
  | dev_tensor =>
    simp only [WrapperOp.step, dev_tensor_entity]
    cases skip_tracing <;> simp [reads_kept]
  | detach => exact reads_kept_refl t
  | set_data_read dest =>
    simp only [WrapperOp.assigns_false] at h
    simp only [WrapperOp.step, TensorWrapper.set_data_read]
    cases hc : cast_bool R dest with
    | error e => exact reads_kept_refl t
    | ok b =>
      cases b
      · rw [hc] at h; simp at h
      · simp [reads_kept]
  | set_value_read dest =>
    simp only [WrapperOp.assigns_false] at h
    simp only [WrapperOp.step, TensorWrapper.set_value_read]
    cases hc : cast_bool R dest with
    | error e => exact reads_kept_refl t
    | ok b =>
      cases b
      · rw [hc] at h; simp at h
      · simp [reads_kept]
  | set_shape_read dest =>
    simp only [WrapperOp.assigns_false] at h
    simp only [WrapperOp.step, TensorWrapper.set_shape_read]
    cases hc : cast_bool R dest with
    | error e => exact reads_kept_refl t
    | ok b =>
      cases b
      · rw [hc] at h; simp at h
      · simp [reads_kept]

theorem run_ops_reads_kept (F : FlagLayout) (R : Reads) (skip_tracing : Bool)
    (ops : List WrapperOp) (t : Tensor) (h : ∀ op ∈ ops, op.assigns_false R = false) :
    reads_kept t (run_ops F R skip_tracing ops t) := by
  induction ops generalizing t with
  | nil => exact reads_kept_refl t
  | cons op rest ih =>
    have h1 := step_reads_kept F R skip_tracing t op (h op (List.mem_cons_self _ _))
    have h2 := ih (op.step F R skip_tracing t) (fun o ho => h o (List.mem_cons_of_mem _ ho))
    exact reads_kept_trans _ _ _ h1 h2

/-- C12, the claim as written fails: with tracing not suppressed, `shape()` sets
`shape_read`, and the property setter called next with `False` turns it back to
false. -/
theorem trace_reads_setter_counterexample :
    (run_ops FlagLayout.std demo_reads false [WrapperOp.shape]
      (Tensor.ofHandle 1)).m_trace_info.shape_read = true ∧
    (run_ops FlagLayout.std demo_reads false
      [WrapperOp.shape, WrapperOp.set_shape_read (PyObj.bool false)]
      (Tensor.ofHandle 1)).m_trace_info.shape_read = false := by
  refine ⟨rfl, rfl⟩

/-- C12 as amended: for every Tensor Entity and every sequence of the operations
shape, numpy, _dev_tensor, detach and calls of the three property setters with a value
that does not convert to false, each of the three read booleans of `trace_info` is
monotone: once true it is true after the sequence.  With tracing not suppressed
`shape()` leaves `shape_read` true, `numpy()` leaves `value_read` true and
`_dev_tensor()` leaves `data_read` true; `detach()` copies the three booleans to the
new entity; a property setter stores the boolean it is given. -/
theorem trace_reads_monotone_without_false_setter (F : FlagLayout) (R : Reads)
    (skip_tracing : Bool) (t : Tensor) (ops : List WrapperOp)
    (h : ∀ op ∈ ops, op.assigns_false R = false) :
    (t.m_trace_info.data_read = true →
      (run_ops F R skip_tracing ops t).m_trace_info.data_read = true) ∧
    (t.m_trace_info.value_read = true →
      (run_ops F R skip_tracing ops t).m_trace_info.value_read = true) ∧
    (t.m_trace_info.shape_read = true →
      (run_ops F R skip_tracing ops t).m_trace_info.shape_read = true) ∧
    (TensorWrapper.shape F R false t).1.m_trace_info.shape_read = true ∧
    (TensorWrapper.numpy F R false t).1.m_trace_info.value_read = true ∧
    (TensorWrapper._dev_tensor R false t).1.m_trace_info.data_read = true ∧
    (TensorWrapper.detach t).m_trace_info = t.m_trace_info ∧
    (∀ b, (TensorWrapper.set_data_read R t (PyObj.bool b)).1.m_trace_info.data_read = b ∧
      (TensorWrapper.set_value_read R t (PyObj.bool b)).1.m_trace_info.value_read = b ∧
      (TensorWrapper.set_shape_read R t (PyObj.bool b)).1.m_trace_info.shape_read = b) := by
  have hk := run_ops_reads_kept F R skip_tracing ops t h
  refine ⟨hk.1, hk.2.1, hk.2.2, ?_, ?_, ?_, ?_, ?_⟩
  · rw [shape_entity]; rfl
  · rw [numpy_entity]; rfl
  · rw [dev_tensor_entity]; rfl
  · unfold TensorWrapper.detach
    cases t.m_handle <;> rfl
  · intro b
    exact ⟨rfl, rfl, rfl⟩

/-- C12 as amended, at a concrete input: `numpy()`, `shape()`, a setter called with
`True`, `detach()` and `_dev_tensor()` on an entity whose `value_read` becomes set. -/
theorem trace_reads_monotone_without_false_setter_witness :
    (run_ops FlagLayout.std demo_reads false
      [WrapperOp.shape, WrapperOp.set_data_read (PyObj.bool true), WrapperOp.detach,
        WrapperOp.dev_tensor]
      (TensorWrapper.numpy FlagLayout.std demo_reads false
        (Tensor.ofHandle 1)).1).m_trace_info.value_read = true :=
  (trace_reads_monotone_without_false_setter FlagLayout.std demo_reads false
    (TensorWrapper.numpy FlagLayout.std demo_reads false (Tensor.ofHandle 1)).1
    [WrapperOp.shape, WrapperOp.set_data_read (PyObj.bool true), WrapperOp.detach,
      WrapperOp.dev_tensor]
    (fun op hop => by
      simp only [List.mem_cons, List.mem_singleton, List.not_mem_nil, or_false] at hop
      rcases hop with rfl | rfl | rfl | rfl <;> rfl)).2.1 rfl

/-! ## The constructor: copy or borrow -/

theorem from_array_unfold (F : FlagLayout) (A : Admission) (is_tracing is_compiled : Bool)
    (a : ArrayArgs) (hpath : (a.is_const && is_tracing) = false) (meth : Meth)
    (hmeth : meth = if a.data.size > A.MAX_NDIM then Meth.borrow a.cn
                    else Meth.copy_into a.cn) :
    (TensorWrapper.from_array F A is_tracing is_compiled a).2 =
      match A.np2tensor a.data meth a.dtype with
      | .error _ => [CtorCall.np2tensor a.data meth a.dtype]
      | .ok value =>
        [CtorCall.np2tensor a.data meth a.dtype, CtorCall.put value (a.no_cache.getD false)] := by
  subst hmeth
  unfold TensorWrapper.from_array
  simp only [hpath]
  have hnc : (match a.no_cache with | some b => b | Option.none => false)
      = a.no_cache.getD false := by
    cases a.no_cache <;> rfl
  rw [hnc]
  cases hr : A.np2tensor a.data
      (if a.data.size > A.MAX_NDIM then Meth.borrow a.cn else Meth.copy_into a.cn) a.dtype <;>
    simp [hr]

/-- C13, the claim as written fails: with the threshold `MAX_NDIM = 7`, a host array
of exactly 7 elements is converted with `copy_into`, not borrowed. -/
theorem from_array_threshold_counterexample :
    (demo_array_args 7 Option.none).data.size = demo_admission.MAX_NDIM ∧
    (TensorWrapper.from_array FlagLayout.std demo_admission false false
      (demo_array_args 7 Option.none)).2
      = [CtorCall.np2tensor { size := 7, ndim := 1 } (Meth.copy_into { id := 1, name := "A" })
           { enumv := 0 },
         CtorCall.put 7 false] := by
  refine ⟨rfl, rfl⟩

/-- C13 as amended: when a Tensor Entity is constructed from a host array (4- or
5-argument form, not the const-under-tracing path), the value is admitted through the
copy-into-channel-owned-buffer path if and only if its element count is not above the
threshold `TensorShape::MAX_NDIM`, and through the borrow path when it is strictly
above, so an array whose element count equals the threshold is copied; in both cases
`no_cache` is forwarded to `put` unchanged (false when only 4 arguments are given). -/
theorem from_array_copy_iff_at_most_threshold (F : FlagLayout) (A : Admission)
    (is_tracing is_compiled : Bool) (a : ArrayArgs)
    (hpath : (a.is_const && is_tracing) = false) :
    (a.data.size ≤ A.MAX_NDIM →
      (TensorWrapper.from_array F A is_tracing is_compiled a).2.head?
        = some (CtorCall.np2tensor a.data (Meth.copy_into a.cn) a.dtype)) ∧
    (A.MAX_NDIM < a.data.size →
      (TensorWrapper.from_array F A is_tracing is_compiled a).2.head?
        = some (CtorCall.np2tensor a.data (Meth.borrow a.cn) a.dtype)) ∧
    (∀ meth value,
      (TensorWrapper.from_array F A is_tracing is_compiled a).2.head?
        = some (CtorCall.np2tensor a.data meth a.dtype) →
      A.np2tensor a.data meth a.dtype = .ok value →
      (TensorWrapper.from_array F A is_tracing is_compiled a).2
        = [CtorCall.np2tensor a.data meth a.dtype,
           CtorCall.put value (a.no_cache.getD false)]) ∧
    (∀ value nc, CtorCall.put value nc ∈ (TensorWrapper.from_array F A is_tracing is_compiled a).2 →
      nc = a.no_cache.getD false) ∧
    (a.no_cache = Option.none →
      ∀ value nc, CtorCall.put value nc ∈ (TensorWrapper.from_array F A is_tracing is_compiled a).2 →
        nc = false) := by
  have hu := from_array_unfold F A is_tracing is_compiled a hpath _ rfl
  have hput : ∀ value nc,
      CtorCall.put value nc ∈ (TensorWrapper.from_array F A is_tracing is_compiled a).2 →
      nc = a.no_cache.getD false := by
    intro value nc hmem
    rw [hu] at hmem
    cases hr : A.np2tensor a.data
        (if a.data.size > A.MAX_NDIM then Meth.borrow a.cn else Meth.copy_into a.cn) a.dtype with
    | error e => rw [hr] at hmem; simp at hmem
    | ok v =>
      rw [hr] at hmem
      simp at hmem
      exact hmem.2
  refine ⟨?_, ?_, ?_, hput, ?_⟩
  · intro hle
    rw [hu, if_neg (by omega)]
    cases A.np2tensor a.data (Meth.copy_into a.cn) a.dtype <;> rfl
  · intro hlt
    rw [hu, if_pos hlt]
    cases A.np2tensor a.data (Meth.borrow a.cn) a.dtype <;> rfl
  · intro meth value hhead hok
    have hm : meth = if a.data.size > A.MAX_NDIM then Meth.borrow a.cn
        else Meth.copy_into a.cn := by
      rw [hu] at hhead
      cases hr : A.np2tensor a.data
          (if a.data.size > A.MAX_NDIM then Meth.borrow a.cn else Meth.copy_into a.cn)
          a.dtype with
      | error e =>
        rw [hr] at hhead
        simp at hhead
        exact hhead.symm
      | ok v =>
        rw [hr] at hhead
        simp at hhead
        exact hhead.symm
    rw [from_array_unfold F A is_tracing is_compiled a hpath meth hm, hok]
  · intro hnone value nc hmem
    rw [hput value nc hmem, hnone]
    rfl

/-- C13 as amended, at concrete inputs: 7 elements are copied, 8 are borrowed, with
the threshold 7. -/
theorem from_array_copy_iff_at_most_threshold_witness :
    (TensorWrapper.from_array FlagLayout.std demo_admission false false
      (demo_array_args 7 (some true))).2.head?
      = some (CtorCall.np2tensor { size := 7, ndim := 1 }
          (Meth.copy_into { id := 1, name := "A" }) { enumv := 0 }) ∧
    (TensorWrapper.from_array FlagLayout.std demo_admission false false
      (demo_array_args 8 (some true))).2.head?
      = some (CtorCall.np2tensor { size := 8, ndim := 1 }
          (Meth.borrow { id := 1, name := "A" }) { enumv := 0 }) :=
  ⟨(from_array_copy_iff_at_most_threshold FlagLayout.std demo_admission false false
      (demo_array_args 7 (some true)) rfl).1 (by decide),
   (from_array_copy_iff_at_most_threshold FlagLayout.std demo_admission false false
      (demo_array_args 8 (some true)) rfl).2.1 (by decide)⟩

end mgb.imperative.python
